import Mathlib

/-!
Verification of the png_filters crate: shallow embedding of the PNG
reconstruction (unfilter) kernels from src/src/lib.rs, src/src/neon.rs,
src/src/sse2.rs and src/src/sse4_1.rs, together with proofs of the spec
claims about them.

Rows of bytes are modelled as List Nat whose elements are below 256
(hypotheses state this where the arithmetic depends on it).  Rust u8
wrapping arithmetic is modelled by explicit reduction modulo 256, and
Rust i16 arithmetic by explicit twos-complement wraparound at width 16.
-/

/-- Wrapping 8-bit addition, modelling Rust u8 wrapping_add. -/
def wadd (x y : Nat) : Nat := (x + y) % 256

/-- Reduction of an integer to the signed 16-bit range by twos-complement
wraparound: the semantics of Rust i16 arithmetic in release mode. -/
def toI16 (z : Int) : Int := (z + 32768) % 65536 - 32768

/-- Unsigned 16-bit pattern of a signed 16-bit value. -/
def u16ofI16 (z : Int) : Nat := ((z % 65536 + 65536) % 65536).toNat

/-- Truncating cast of an i16 value to u8 (Rust as u8): its low byte. -/
def u8ofI16 (z : Int) : Nat := u16ofI16 z % 256

/-- Absolute value on i16, with twos-complement wraparound on i16 MIN
(release-mode semantics of i16 abs). -/
def absI16 (z : Int) : Int := toI16 (Int.natAbs z)

/-- One byte of the Sub loop of recon_sub_fallback (src/src/lib.rs line 77):
x.wrapping_add(a). -/
def subStep (fv av : Nat) : Nat := wadd fv av

/-- Loop of recon_sub_fallback (src/src/lib.rs lines 74-80): iterate
chunks_exact_mut over BYTES_PER_PIXEL-sized pixel groups, the accumulator a
holding the previously reconstructed group.  Bytes of a trailing partial
group are not visited by chunks_exact_mut and are returned unchanged; a
chunk size of zero never enters the loop body (modelling is irrelevant
there because the checked wrapper reports the panic). -/
def subGo (bpp : Nat) (a : List Nat) (f : List Nat) : List Nat :=
  if _h : bpp = 0 ∨ f.length < bpp then f
  else
    let x := List.zipWith subStep (f.take bpp) a
    x ++ subGo bpp x (f.drop bpp)
termination_by f.length
decreasing_by simp only [List.length_drop]; omega

/-- Final state of filtered_row after a successful call of
recon_sub_fallback (src/src/lib.rs lines 70-81): the loop is entered with
the accumulator a = [0; BYTES_PER_PIXEL]. -/
def recon_sub_fallback (bpp : Nat) (f : List Nat) : List Nat :=
  subGo bpp (List.replicate bpp 0) f

/-- Final state of filtered_row after recon_up_fallback (src/src/lib.rs
lines 98-102): elementwise wrapping add with the previous row; iteration
stops at the shorter row, later bytes of filtered_row stay unchanged. -/
def recon_up_fallback (f p : List Nat) : List Nat :=
  List.zipWith wadd f p ++ f.drop p.length

/-- One byte of the Average loop (src/src/lib.rs lines 129-132):
average = ((a as i16 + b as i16) / 2) as u8 with truncating i16 division,
then x.wrapping_add(average). -/
def avgStep (fv av bv : Nat) : Nat :=
  wadd fv (u8ofI16 (Int.tdiv (toI16 ((av : Int) + (bv : Int))) 2))

/-- Loop of recon_average_fallback (src/src/lib.rs lines 122-135): zipped
iteration of chunks_exact_mut over filtered_row with chunks_exact over
previous_row; stops when either row runs out of full groups. -/
def avgGo (bpp : Nat) (a : List Nat) (f p : List Nat) : List Nat :=
  if _h : bpp = 0 ∨ f.length < bpp ∨ p.length < bpp then f
  else
    let x := List.zipWith3 avgStep (f.take bpp) a (p.take bpp)
    x ++ avgGo bpp x (f.drop bpp) (p.drop bpp)
termination_by f.length
decreasing_by simp only [List.length_drop]; omega

/-- Final state of filtered_row after a successful call of
recon_average_fallback (src/src/lib.rs lines 115-136). -/
def recon_average_fallback (bpp : Nat) (f p : List Nat) : List Nat :=
  avgGo bpp (List.replicate bpp 0) f p

/-- One byte of the AverageTop loop (src/src/lib.rs line 148):
x.wrapping_add(a / 2) with u8 (floor) division. -/
def avgTopStep (fv av : Nat) : Nat := wadd fv (av / 2)

/-- Loop of recon_average_top_fallback (src/src/lib.rs lines 145-151). -/
def avgTopGo (bpp : Nat) (a : List Nat) (f : List Nat) : List Nat :=
  if _h : bpp = 0 ∨ f.length < bpp then f
  else
    let x := List.zipWith avgTopStep (f.take bpp) a
    x ++ avgTopGo bpp x (f.drop bpp)
termination_by f.length
decreasing_by simp only [List.length_drop]; omega

/-- Final state of filtered_row after a successful call of
recon_average_top_fallback (src/src/lib.rs lines 141-152). -/
def recon_average_top_fallback (bpp : Nat) (f : List Nat) : List Nat :=
  avgTopGo bpp (List.replicate bpp 0) f

/-- One byte of the Paeth loop (src/src/lib.rs lines 181-193), with the
i16 operations of the source made explicit: p = a as i16 + b as i16 -
c as i16, pa = (p - a).abs(), pb = (p - b).abs(), pc = (p - c).abs(),
then the wrapping add of the selected predictor. -/
def paethStep (fv av bv cv : Nat) : Nat :=
  let p : Int := toI16 (toI16 ((av : Int) + (bv : Int)) - (cv : Int))
  let pa : Int := absI16 (toI16 (p - (av : Int)))
  let pb : Int := absI16 (toI16 (p - (bv : Int)))
  let pc : Int := absI16 (toI16 (p - (cv : Int)))
  wadd fv (if pa ≤ pb ∧ pa ≤ pc then av else if pb ≤ pc then bv else cv)

/-- Loop of recon_paeth_fallback (src/src/lib.rs lines 173-197): zipped
group iteration; after each group the accumulator a becomes the
reconstructed group and c becomes the previous-row group b. -/
def paethGo (bpp : Nat) (a c : List Nat) (f p : List Nat) : List Nat :=
  if _h : bpp = 0 ∨ f.length < bpp ∨ p.length < bpp then f
  else
    let x := List.zipWith4 paethStep (f.take bpp) a (p.take bpp) c
    x ++ paethGo bpp x (p.take bpp) (f.drop bpp) (p.drop bpp)
termination_by f.length
decreasing_by simp only [List.length_drop]; omega

/-- Final state of filtered_row after a successful call of
recon_paeth_fallback (src/src/lib.rs lines 166-198): both accumulators
start as [0; BYTES_PER_PIXEL]. -/
def recon_paeth_fallback (bpp : Nat) (f p : List Nat) : List Nat :=
  paethGo bpp (List.replicate bpp 0) (List.replicate bpp 0) f p

/-- Panic behaviour of recon_sub_fallback: error carries the state of
filtered_row at the moment of the panic.  The function asserts
BYTES_PER_PIXEL <= 8 before touching any byte, and chunks_exact_mut
panics on a chunk size of zero, also before any write, so on every
panic filtered_row is still the untouched input. -/
def recon_sub_fallback_checked (bpp : Nat) (f : List Nat) :
    Except (List Nat) (List Nat) :=
  if 8 < bpp ∨ bpp = 0 then .error f else .ok (recon_sub_fallback bpp f)

/-- Panic behaviour of recon_average_fallback, as for
recon_sub_fallback_checked. -/
def recon_average_fallback_checked (bpp : Nat) (f p : List Nat) :
    Except (List Nat) (List Nat) :=
  if 8 < bpp ∨ bpp = 0 then .error f else .ok (recon_average_fallback bpp f p)

/-- Panic behaviour of recon_average_top_fallback, as for
recon_sub_fallback_checked. -/
def recon_average_top_fallback_checked (bpp : Nat) (f : List Nat) :
    Except (List Nat) (List Nat) :=
  if 8 < bpp ∨ bpp = 0 then .error f else .ok (recon_average_top_fallback bpp f)

/-- Panic behaviour of recon_paeth_fallback, as for
recon_sub_fallback_checked. -/
def recon_paeth_fallback_checked (bpp : Nat) (f p : List Nat) :
    Except (List Nat) (List Nat) :=
  if 8 < bpp ∨ bpp = 0 then .error f else .ok (recon_paeth_fallback bpp f p)

/-- Interleaving of two byte lists, element by element: the lane pattern of
the zip1 style vector instructions. -/
def interleave : List Nat → List Nat → List Nat
  | x :: xs, y :: ys => x :: y :: interleave xs ys
  | _, _ => []

/-- Elements at even positions of a byte list: the lane pattern of the
uzp1 style vector instructions. -/
def evens : List Nat → List Nat
  | [] => []
  | [x] => [x]
  | x :: _ :: rest => x :: evens rest

/-- Little-endian byte pair of a signed 16-bit lane value. -/
def bytesLoHi (z : Int) : List Nat := [u16ofI16 z % 256, u16ofI16 z / 256]

/-- Reinterpretation of a little-endian byte list as signed 16-bit lanes. -/
def i16ofBytes : List Nat → List Int
  | lo :: hi :: rest => toI16 ((lo : Int) + 256 * (hi : Int)) :: i16ofBytes rest
  | _ => []

namespace neon

/-- Model of uint8x8_t_load of src/src/neon.rs (lines 25-33): an 8-lane
byte register holding the BYTES_PER_PIXEL-byte chunk in its low lanes and
zero in the rest (a full vld1_u8 load when BYTES_PER_PIXEL = 8). -/
def vload8 (bpp : Nat) (chunk : List Nat) : List Nat :=
  chunk ++ List.replicate (8 - bpp) 0

/-- Lanewise wrapping u8 addition (the vadd_u8 intrinsic). -/
def vadd_u8 (x y : List Nat) : List Nat := List.zipWith wadd x y

/-- Lanewise u8 halving add (the vhadd_u8 intrinsic): the sum is formed
with 9-bit internal precision, then shifted right once. -/
def vhadd_u8 (x y : List Nat) : List Nat :=
  List.zipWith (fun a b => (a + b) / 2) x y

/-- Lanewise u8 logical shift right by one (vshr_n_u8 with N = 1). -/
def vshr1_u8 (x : List Nat) : List Nat := x.map (fun v => v / 2)

/-- Lanewise i16 addition with wraparound (the vaddq_s16 intrinsic). -/
def vaddq_s16 (x y : List Int) : List Int :=
  List.zipWith (fun a b => toI16 (a + b)) x y

/-- Lanewise i16 subtraction with wraparound (the vsubq_s16 intrinsic). -/
def vsubq_s16 (x y : List Int) : List Int :=
  List.zipWith (fun a b => toI16 (a - b)) x y

/-- Lanewise i16 absolute value (the vabsq_s16 intrinsic). -/
def vabsq_s16 (x : List Int) : List Int := x.map absI16

/-- Lanewise signed compare less-or-equal (the vcleq_s16 intrinsic); a
comparison result lane is all ones or all zeroes, so masks are modelled
at lane granularity as Bool. -/
def vcleq_s16 (x y : List Int) : List Bool :=
  List.zipWith (fun a b => decide (a ≤ b)) x y

/-- Lanewise mask conjunction (the vandq_u16 intrinsic on compare masks). -/
def vandq_u16 (x y : List Bool) : List Bool := List.zipWith and x y

/-- Bitwise select (the vbslq_s16 intrinsic); the masks used in this file
are whole-lane masks produced by compares, so select acts lanewise. -/
def vbslq_s16 (m : List Bool) (x y : List Int) : List Int :=
  List.zipWith3 (fun mv xv yv => if mv then xv else yv) m x y

/-- Reinterpretation of 8 i16 lanes as their 16 little-endian bytes (the
vreinterpretq_u8_s16 intrinsic). -/
def vreinterpretq_u8_s16 (v : List Int) : List Nat := v.flatMap bytesLoHi

/-- Unzip of even-position bytes from two registers (the vuzp1q_u8
intrinsic). -/
def vuzp1q_u8 (x y : List Nat) : List Nat := evens x ++ evens y

/-- Low 8 lanes of a 16-byte register (the vget_low_u8 intrinsic). -/
def vget_low_u8 (x : List Nat) : List Nat := x.take 8

/-- Concatenation of two 8-byte registers (the vcombine_u8 intrinsic). -/
def vcombine_u8 (x y : List Nat) : List Nat := x ++ y

/-- Interleave of the low 8 bytes of two registers (the vzip1q_u8
intrinsic). -/
def vzip1q_u8 (x y : List Nat) : List Nat := interleave (x.take 8) (y.take 8)

/-- Reinterpretation of 16 little-endian bytes as 8 i16 lanes (the
vreinterpretq_s16_u8 intrinsic). -/
def vreinterpretq_s16_u8 (v : List Nat) : List Int := i16ofBytes v

/-- Loop of neon recon_sub (src/src/neon.rs lines 50-61): load a group
into the low lanes of a zeroed register, vadd_u8 with the accumulator,
store the low BYTES_PER_PIXEL lanes back. -/
def subGo (bpp : Nat) (a : List Nat) (f : List Nat) : List Nat :=
  if _h : bpp = 0 ∨ f.length < bpp then f
  else
    let x := vadd_u8 (vload8 bpp (f.take bpp)) a
    x.take bpp ++ subGo bpp x (f.drop bpp)
termination_by f.length
decreasing_by simp only [List.length_drop]; omega

/-- Final state of filtered_row after neon recon_sub, entered with a
zeroed accumulator register. -/
def recon_sub (bpp : Nat) (f : List Nat) : List Nat :=
  subGo bpp (List.replicate 8 0) f

/-- Final state of filtered_row after neon recon_up (src/src/neon.rs
lines 69-73): the body is the same scalar zipped loop as
recon_up_fallback. -/
def recon_up (f p : List Nat) : List Nat :=
  List.zipWith wadd f p ++ f.drop p.length

/-- Loop of neon recon_average (src/src/neon.rs lines 93-107): halving
add of accumulator and previous-row group, then wrapping add. -/
def avgGo (bpp : Nat) (a : List Nat) (f p : List Nat) : List Nat :=
  if _h : bpp = 0 ∨ f.length < bpp ∨ p.length < bpp then f
  else
    let b := vload8 bpp (p.take bpp)
    let x := vadd_u8 (vload8 bpp (f.take bpp)) (vhadd_u8 a b)
    x.take bpp ++ avgGo bpp x (f.drop bpp) (p.drop bpp)
termination_by f.length
decreasing_by simp only [List.length_drop]; omega

/-- Final state of filtered_row after neon recon_average. -/
def recon_average (bpp : Nat) (f p : List Nat) : List Nat :=
  avgGo bpp (List.replicate 8 0) f p

/-- Loop of neon recon_average_top (src/src/neon.rs lines 119-125):
shift the accumulator right one bit, then wrapping add. -/
def avgTopGo (bpp : Nat) (a : List Nat) (f : List Nat) : List Nat :=
  if _h : bpp = 0 ∨ f.length < bpp then f
  else
    let x := vadd_u8 (vload8 bpp (f.take bpp)) (vshr1_u8 a)
    x.take bpp ++ avgTopGo bpp x (f.drop bpp)
termination_by f.length
decreasing_by simp only [List.length_drop]; omega

/-- Final state of filtered_row after neon recon_average_top. -/
def recon_average_top (bpp : Nat) (f : List Nat) : List Nat :=
  avgTopGo bpp (List.replicate 8 0) f

/-- Loop of neon recon_paeth (src/src/neon.rs lines 141-174).  The
accumulators a and c are i16 registers; the previous-row group is widened
lane by lane into a zeroed i16 register; the predictor is selected with
compare and bit-select, its i16 lanes are narrowed to bytes by taking the
even (little-endian low) bytes with vuzp1q_u8, and the new accumulator a
is the reconstructed group zero-extended by interleaving with zeroes. -/
def paethGo (bpp : Nat) (a c : List Int) (f p : List Nat) : List Nat :=
  if _h : bpp = 0 ∨ f.length < bpp ∨ p.length < bpp then f
  else
    let x0 := vload8 bpp (f.take bpp)
    let b : List Int :=
      (p.take bpp).map (Nat.cast : Nat → Int) ++ List.replicate (8 - bpp) 0
    let p16 := vsubq_s16 (vaddq_s16 a b) c
    let pa := vabsq_s16 (vsubq_s16 p16 a)
    let pb := vabsq_s16 (vsubq_s16 p16 b)
    let pc := vabsq_s16 (vsubq_s16 p16 c)
    let pa_le_pb := vcleq_s16 pa pb
    let pa_le_pc := vcleq_s16 pa pc
    let pa_le_pb_and_pa_le_pc := vandq_u16 pa_le_pb pa_le_pc
    let pb_le_pc := vcleq_s16 pb pc
    let pick_b_or_c := vbslq_s16 pb_le_pc b c
    let paeth_s16 := vbslq_s16 pa_le_pb_and_pa_le_pc a pick_b_or_c
    let paeth := vget_low_u8
      (vuzp1q_u8 (vreinterpretq_u8_s16 paeth_s16) (List.replicate 16 0))
    let x := vadd_u8 x0 paeth
    let a2 := vreinterpretq_s16_u8
      (vzip1q_u8 (vcombine_u8 x (List.replicate 8 0)) (List.replicate 16 0))
    x.take bpp ++ paethGo bpp a2 b (f.drop bpp) (p.drop bpp)
termination_by f.length
decreasing_by simp only [List.length_drop]; omega

/-- Final state of filtered_row after neon recon_paeth, entered with
zeroed i16 accumulator registers. -/
def recon_paeth (bpp : Nat) (f p : List Nat) : List Nat :=
  paethGo bpp (List.replicate 8 0) (List.replicate 8 0) f p

end neon

namespace sse2

/-- Model of the load pattern of sse2 recon_sub (src/src/sse2.rs lines
26-29): a zeroed 16-byte xmm register whose low BYTES_PER_PIXEL bytes are
copied from the chunk. -/
def load16 (bpp : Nat) (chunk : List Nat) : List Nat :=
  chunk ++ List.replicate (16 - bpp) 0

/-- Lanewise wrapping u8 addition over 16 byte lanes (the _mm_add_epi8
intrinsic). -/
def mm_add_epi8 (x y : List Nat) : List Nat := List.zipWith wadd x y

/-- Loop of sse2 recon_sub (src/src/sse2.rs lines 22-34). -/
def subGo (bpp : Nat) (a : List Nat) (f : List Nat) : List Nat :=
  if _h : bpp = 0 ∨ f.length < bpp then f
  else
    let x := mm_add_epi8 (load16 bpp (f.take bpp)) a
    x.take bpp ++ subGo bpp x (f.drop bpp)
termination_by f.length
decreasing_by simp only [List.length_drop]; omega

/-- Final state of filtered_row after sse2 recon_sub, entered with a
zeroed accumulator register. -/
def recon_sub (bpp : Nat) (f : List Nat) : List Nat :=
  subGo bpp (List.replicate 16 0) f

end sse2

namespace sse4_1

/-- Saturating narrowing of an i16 lane to u8 (one lane of the
_mm_packus_epi16 intrinsic). -/
def satu8 (z : Int) : Nat :=
  if z < 0 then 0 else if (255 : Int) < z then 255 else z.toNat

/-- Model of the load pattern of the sse4.1 kernels (ZEROED register,
low BYTES_PER_PIXEL bytes copied from the chunk). -/
def load16 (bpp : Nat) (chunk : List Nat) : List Nat :=
  chunk ++ List.replicate (16 - bpp) 0

/-- Lanewise wrapping u8 addition over 16 byte lanes (the _mm_add_epi8
intrinsic). -/
def mm_add_epi8 (x y : List Nat) : List Nat := List.zipWith wadd x y

/-- Lanewise i16 addition with wraparound (the _mm_add_epi16 intrinsic). -/
def mm_add_epi16 (x y : List Int) : List Int :=
  List.zipWith (fun a b => toI16 (a + b)) x y

/-- Lanewise i16 subtraction with wraparound (the _mm_sub_epi16
intrinsic). -/
def mm_sub_epi16 (x y : List Int) : List Int :=
  List.zipWith (fun a b => toI16 (a - b)) x y

/-- Lanewise i16 absolute value (the _mm_abs_epi16 intrinsic). -/
def mm_abs_epi16 (x : List Int) : List Int := x.map absI16

/-- Lanewise i16 arithmetic shift right by one (the _mm_srai_epi16
intrinsic with count 1); an arithmetic right shift of a twos-complement
value is division by two rounding toward negative infinity, which is
Int division in Lean. -/
def mm_srai1_epi16 (x : List Int) : List Int := x.map (fun v => v / 2)

/-- Lanewise signed compare less-than (the _mm_cmplt_epi16 intrinsic);
compare results are whole-lane masks, modelled as Bool per lane. -/
def mm_cmplt_epi16 (x y : List Int) : List Bool :=
  List.zipWith (fun a b => decide (a < b)) x y

/-- Lanewise compare equal (the _mm_cmpeq_epi16 intrinsic). -/
def mm_cmpeq_epi16 (x y : List Int) : List Bool :=
  List.zipWith (fun a b => decide (a = b)) x y

/-- Lanewise mask disjunction (the _mm_or_si128 intrinsic on compare
masks). -/
def mm_or_si128 (x y : List Bool) : List Bool := List.zipWith or x y

/-- Lanewise mask conjunction (the _mm_and_si128 intrinsic on compare
masks). -/
def mm_and_si128 (x y : List Bool) : List Bool := List.zipWith and x y

/-- Model of i16_le_sse2 of src/src/sse4_1.rs (lines 28-32): less-or-equal
emulated as the disjunction of less-than and equality. -/
def i16_le_sse2 (a b : List Int) : List Bool :=
  mm_or_si128 (mm_cmplt_epi16 a b) (mm_cmpeq_epi16 a b)

/-- Byte select (the _mm_blendv_epi8 intrinsic), picking from the second
operand where the mask is set; the masks used here are whole-i16-lane
compare masks over i16 data, so the byte select acts per i16 lane. -/
def mm_blendv_epi8 (x y : List Int) (m : List Bool) : List Int :=
  List.zipWith3 (fun xv yv mv => if mv then yv else xv) x y m

/-- Saturating pack of two i16 registers to one u8 register (the
_mm_packus_epi16 intrinsic). -/
def mm_packus_epi16 (x y : List Int) : List Nat :=
  x.map satu8 ++ y.map satu8

/-- Interleave of the low 8 bytes of two registers (the
_mm_unpacklo_epi8 intrinsic). -/
def mm_unpacklo_epi8 (x y : List Nat) : List Nat :=
  interleave (x.take 8) (y.take 8)

/-- Loop of sse4.1 recon_sub (src/src/sse4_1.rs lines 40-52), identical
in structure to the sse2 version. -/
def subGo (bpp : Nat) (a : List Nat) (f : List Nat) : List Nat :=
  if _h : bpp = 0 ∨ f.length < bpp then f
  else
    let x := mm_add_epi8 (load16 bpp (f.take bpp)) a
    x.take bpp ++ subGo bpp x (f.drop bpp)
termination_by f.length
decreasing_by simp only [List.length_drop]; omega

/-- Final state of filtered_row after sse4.1 recon_sub. -/
def recon_sub (bpp : Nat) (f : List Nat) : List Nat :=
  subGo bpp (List.replicate 16 0) f

/-- Final state of filtered_row after sse4.1 recon_up (src/src/sse4_1.rs
lines 66-70): the body is the same scalar zipped loop as
recon_up_fallback. -/
def recon_up (f p : List Nat) : List Nat :=
  List.zipWith wadd f p ++ f.drop p.length

/-- Loop of sse4.1 recon_average (src/src/sse4_1.rs lines 90-106): the
accumulator a is kept as widened i16 lanes, the previous-row group is
widened into a zeroed i16 register, their sum is shifted right
arithmetically and packed back to bytes with saturation. -/
def avgGo (bpp : Nat) (a : List Int) (f p : List Nat) : List Nat :=
  if _h : bpp = 0 ∨ f.length < bpp ∨ p.length < bpp then f
  else
    let b : List Int :=
      (p.take bpp).map (Nat.cast : Nat → Int) ++ List.replicate (8 - bpp) 0
    let average := mm_srai1_epi16 (mm_add_epi16 a b)
    let average_u8 := mm_packus_epi16 average (List.replicate 8 0)
    let x := mm_add_epi8 (load16 bpp (f.take bpp)) average_u8
    let a2 := i16ofBytes (mm_unpacklo_epi8 x (List.replicate 16 0))
    x.take bpp ++ avgGo bpp a2 (f.drop bpp) (p.drop bpp)
termination_by f.length
decreasing_by simp only [List.length_drop]; omega

/-- Final state of filtered_row after sse4.1 recon_average, entered with
a zeroed i16 accumulator. -/
def recon_average (bpp : Nat) (f p : List Nat) : List Nat :=
  avgGo bpp (List.replicate 8 0) f p

/-- Loop of sse4.1 recon_average_top (src/src/sse4_1.rs lines 115-136). -/
def avgTopGo (bpp : Nat) (a : List Int) (f : List Nat) : List Nat :=
  if _h : bpp = 0 ∨ f.length < bpp then f
  else
    let half_a := mm_srai1_epi16 a
    let half_a_u8 := mm_packus_epi16 half_a (List.replicate 8 0)
    let x := mm_add_epi8 (load16 bpp (f.take bpp)) half_a_u8
    let a2 := i16ofBytes (mm_unpacklo_epi8 x (List.replicate 16 0))
    x.take bpp ++ avgTopGo bpp a2 (f.drop bpp)
termination_by f.length
decreasing_by simp only [List.length_drop]; omega

/-- Final state of filtered_row after sse4.1 recon_average_top. -/
def recon_average_top (bpp : Nat) (f : List Nat) : List Nat :=
  avgTopGo bpp (List.replicate 8 0) f

/-- Loop of sse4.1 recon_paeth (src/src/sse4_1.rs lines 151-178): the
same predictor selection as the scalar code, carried out on widened i16
lanes with emulated less-or-equal masks and byte selects, the result
packed back to bytes with saturation. -/
def paethGo (bpp : Nat) (a c : List Int) (f p : List Nat) : List Nat :=
  if _h : bpp = 0 ∨ f.length < bpp ∨ p.length < bpp then f
  else
    let b : List Int :=
      (p.take bpp).map (Nat.cast : Nat → Int) ++ List.replicate (8 - bpp) 0
    let p16 := mm_sub_epi16 (mm_add_epi16 a b) c
    let pa := mm_abs_epi16 (mm_sub_epi16 p16 a)
    let pb := mm_abs_epi16 (mm_sub_epi16 p16 b)
    let pc := mm_abs_epi16 (mm_sub_epi16 p16 c)
    let pa_le_pb := i16_le_sse2 pa pb
    let pa_le_pc := i16_le_sse2 pa pc
    let pa_le_pb_and_pa_le_pc := mm_and_si128 pa_le_pb pa_le_pc
    let pb_le_pc := i16_le_sse2 pb pc
    let pick_b_or_c := mm_blendv_epi8 c b pb_le_pc
    let paeth16 := mm_blendv_epi8 pick_b_or_c a pa_le_pb_and_pa_le_pc
    let paeth := mm_packus_epi16 paeth16 (List.replicate 8 0)
    let x := mm_add_epi8 (load16 bpp (f.take bpp)) paeth
    let a2 := i16ofBytes (mm_unpacklo_epi8 x (List.replicate 16 0))
    x.take bpp ++ paethGo bpp a2 b (f.drop bpp) (p.drop bpp)
termination_by f.length
decreasing_by simp only [List.length_drop]; omega

/-- Final state of filtered_row after sse4.1 recon_paeth. -/
def recon_paeth (bpp : Nat) (f p : List Nat) : List Nat :=
  paethGo bpp (List.replicate 8 0) (List.replicate 8 0) f p

end sse4_1

/-- Modelled from the spec: missing from src/ is the dispatcher, the single
public per-call entry point unfilter_lines (the benchmarks in
src/benches/the_bench.rs call png_filters::unfilter_lines, but no file
under src/src defines it).  Following spec section 4.3, a row is a filter
tag byte followed by the payload; on the first row only Sub (tag 1) and
AverageTop (tag 3) are meaningful, tag 4 is aliased to Sub per the
section 4.1 first-row Paeth reduction, tag 2 and every other tag leave
the payload unchanged. -/
def unfilterFirstRow (bpp : Nat) (tag : Nat) (payload : List Nat) : List Nat :=
  if tag = 1 then recon_sub_fallback bpp payload
  else if tag = 3 then recon_average_top_fallback bpp payload
  else if tag = 4 then recon_sub_fallback bpp payload
  else payload

/-- Modelled from the spec (section 4.3 step 4): dispatch on the tag of a
row after the first, against the previous reconstructed payload; any tag
outside 1-4 is a no-op. -/
def unfilterRow (bpp : Nat) (prev : List Nat) (tag : Nat)
    (payload : List Nat) : List Nat :=
  if tag = 1 then recon_sub_fallback bpp payload
  else if tag = 2 then recon_up_fallback payload prev
  else if tag = 3 then recon_average_fallback bpp payload prev
  else if tag = 4 then recon_paeth_fallback bpp payload prev
  else payload

/-- Modelled from the spec (section 4.3 step 5): process the rows after
the first in order, forcing each tag byte to 0 and advancing the live
previous-row reference to the reconstructed payload.  An empty row
segment (which the spec excludes, every row being 1 + width times BPP
bytes long) is passed through unchanged. -/
def unfilterRest (bpp : Nat) (prev : List Nat) :
    List (List Nat) → List (List Nat)
  | [] => []
  | [] :: rest => [] :: unfilterRest bpp prev rest
  | (tag :: payload) :: rest =>
    let out := unfilterRow bpp prev tag payload
    (0 :: out) :: unfilterRest bpp out rest

/-- Modelled from the spec: the dispatcher unfilter_lines.  The first row
is handled by the first-row specialization, every later row by the tag
dispatch against the previous reconstructed payload; every processed row
gets its tag byte forced to 0. -/
def unfilter_lines (bpp : Nat) : List (List Nat) → List (List Nat)
  | [] => []
  | [] :: rest => [] :: unfilterRest bpp [] rest
  | (tag :: payload) :: rest =>
    let out := unfilterFirstRow bpp tag payload
    (0 :: out) :: unfilterRest bpp out rest

/-- Names of the public kernel operations defined by src/src/neon.rs. -/
def neon_module_ops : List String :=
  ["recon_sub", "recon_up", "recon_average", "recon_average_top",
   "recon_paeth"]

/-- Names of the public kernel operations defined by src/src/sse2.rs:
the file contains recon_sub only. -/
def sse2_module_ops : List String := ["recon_sub"]

/-- Names of the public kernel operations defined by src/src/sse4_1.rs. -/
def sse4_1_module_ops : List String :=
  ["recon_sub", "recon_up", "recon_average", "recon_average_top",
   "recon_paeth"]

/-- Names of the submodules declared by src/src/lib.rs (lines 55-58):
neon under target_arch aarch64 and sse2 under x86 or x86_64; no sse4_1
module is declared there. -/
def lib_declared_modules : List String := ["neon", "sse2"]

theorem getD_take_eq (l : List Nat) (n j : Nat) (h : j < n) :
    (l.take n).getD j 0 = l.getD j 0 := by
  induction l generalizing n j with
  | nil => simp
  | cons x xs ih =>
    cases n with
    | zero => omega
    | succ n =>
      cases j with
      | zero => simp
      | succ j => simpa using ih n j (by omega)

theorem getD_drop_eq (l : List Nat) (n j : Nat) :
    (l.drop n).getD j 0 = l.getD (n + j) 0 := by
  induction l generalizing n with
  | nil => simp
  | cons x xs ih =>
    cases n with
    | zero => simp
    | succ n =>
      simpa [Nat.succ_add] using ih n

theorem getD_replicate_eq (a : Nat) (n j : Nat) (h : j < n) :
    (List.replicate n a).getD j 0 = a := by
  induction n generalizing j with
  | zero => omega
  | succ n ih =>
    cases j with
    | zero => simp [List.replicate]
    | succ j => simpa [List.replicate] using ih j (by omega)

theorem getD_zipWith_eq (g : Nat → Nat → Nat) (l1 l2 : List Nat) (j : Nat)
    (h1 : j < l1.length) (h2 : j < l2.length) :
    (List.zipWith g l1 l2).getD j 0 = g (l1.getD j 0) (l2.getD j 0) := by
  induction l1 generalizing l2 j with
  | nil => simp at h1
  | cons x xs ih =>
    cases l2 with
    | nil => simp at h2
    | cons y ys =>
      cases j with
      | zero => simp
      | succ j =>
        simpa using ih ys j (by simpa using h1) (by simpa using h2)

theorem getD_zipWith3_eq (g : Nat → Nat → Nat → Nat) (l1 l2 l3 : List Nat)
    (j : Nat) (h1 : j < l1.length) (h2 : j < l2.length) (h3 : j < l3.length) :
    (List.zipWith3 g l1 l2 l3).getD j 0 =
      g (l1.getD j 0) (l2.getD j 0) (l3.getD j 0) := by
  induction l1 generalizing l2 l3 j with
  | nil => simp at h1
  | cons x xs ih =>
    cases l2 with
    | nil => simp at h2
    | cons y ys =>
      cases l3 with
      | nil => simp at h3
      | cons z zs =>
        cases j with
        | zero => simp [List.zipWith3]
        | succ j =>
          simpa [List.zipWith3] using
            ih ys zs j (by simpa using h1) (by simpa using h2)
              (by simpa using h3)

theorem getD_zipWith4_eq (g : Nat → Nat → Nat → Nat → Nat)
    (l1 l2 l3 l4 : List Nat) (j : Nat) (h1 : j < l1.length)
    (h2 : j < l2.length) (h3 : j < l3.length) (h4 : j < l4.length) :
    (List.zipWith4 g l1 l2 l3 l4).getD j 0 =
      g (l1.getD j 0) (l2.getD j 0) (l3.getD j 0) (l4.getD j 0) := by
  induction l1 generalizing l2 l3 l4 j with
  | nil => simp at h1
  | cons x xs ih =>
    cases l2 with
    | nil => simp at h2
    | cons y ys =>
      cases l3 with
      | nil => simp at h3
      | cons z zs =>
        cases l4 with
        | nil => simp at h4
        | cons w ws =>
          cases j with
          | zero => simp [List.zipWith4]
          | succ j =>
            simpa [List.zipWith4] using
              ih ys zs ws j (by simpa using h1) (by simpa using h2)
                (by simpa using h3) (by simpa using h4)

theorem length_zipWith3 {α β γ δ : Type} (g : α → β → γ → δ)
    (l1 : List α) (l2 : List β) (l3 : List γ) :
    (List.zipWith3 g l1 l2 l3).length =
      min l1.length (min l2.length l3.length) := by
  induction l1 generalizing l2 l3 with
  | nil => simp [List.zipWith3]
  | cons x xs ih =>
    cases l2 with
    | nil => simp [List.zipWith3]
    | cons y ys =>
      cases l3 with
      | nil => simp [List.zipWith3]
      | cons z zs => simp [List.zipWith3, ih ys zs]; omega

theorem length_zipWith4 {α β γ δ ε : Type} (g : α → β → γ → δ → ε)
    (l1 : List α) (l2 : List β) (l3 : List γ) (l4 : List δ) :
    (List.zipWith4 g l1 l2 l3 l4).length =
      min l1.length (min l2.length (min l3.length l4.length)) := by
  induction l1 generalizing l2 l3 l4 with
  | nil => simp [List.zipWith4]
  | cons x xs ih =>
    cases l2 with
    | nil => simp [List.zipWith4]
    | cons y ys =>
      cases l3 with
      | nil => simp [List.zipWith4]
      | cons z zs =>
        cases l4 with
        | nil => simp [List.zipWith4]
        | cons w ws => simp [List.zipWith4, ih ys zs ws]; omega

theorem wadd_lt256 (x y : Nat) : wadd x y < 256 := by
  unfold wadd; omega

theorem getD_lt256 (l : List Nat) (hl : ∀ v ∈ l, v < 256) (j : Nat)
    (h : j < l.length) : l.getD j 0 < 256 := by
  induction l generalizing j with
  | nil => simp at h
  | cons x xs ih =>
    cases j with
    | zero => exact hl x (by simp)
    | succ j =>
      simpa using ih (fun v hv => hl v (by simp [hv])) j (by simpa using h)

theorem subGo_length (bpp : Nat) (a f : List Nat) (ha : a.length = bpp) :
    (subGo bpp a f).length = f.length := by
  unfold subGo
  split
  · rfl
  · rename_i h
    push_neg at h
    have hx : (List.zipWith subStep (f.take bpp) a).length = bpp := by
      simp [ha]; omega
    have ih := subGo_length bpp (List.zipWith subStep (f.take bpp) a)
      (f.drop bpp) hx
    simp only [List.length_append, hx, ih, List.length_drop]
    omega
termination_by f.length
decreasing_by simp only [List.length_drop]; omega

theorem subGo_getD (bpp : Nat) (a f : List Nat) (ha : a.length = bpp)
    (hdvd : bpp ∣ f.length) (i j : Nat) (hj : j < bpp)
    (hk : bpp * i + j < f.length) :
    (subGo bpp a f).getD (bpp * i + j) 0 =
      wadd (f.getD (bpp * i + j) 0)
        (if i = 0 then a.getD j 0
         else (subGo bpp a f).getD (bpp * (i - 1) + j) 0) := by
  have hble : bpp ≤ f.length := by
    rcases hdvd with ⟨m, hm⟩
    rcases m with _ | m
    · omega
    · have : bpp * 1 ≤ bpp * (m + 1) := Nat.mul_le_mul_left bpp (by omega)
      omega
  rw [subGo]
  rw [dif_neg (by push_neg; omega)]
  have hx : (List.zipWith subStep (f.take bpp) a).length = bpp := by
    simp [ha]; omega
  cases i with
  | zero =>
    simp only [if_pos rfl, Nat.mul_zero, Nat.zero_add]
    rw [List.getD_append _ _ _ _ (by omega)]
    rw [getD_zipWith_eq _ _ _ _ (by simp; omega) (by omega)]
    rw [getD_take_eq _ _ _ hj]
    rfl
  | succ i =>
    have hge : bpp ≤ bpp * (i + 1) + j := by
      have : bpp * 1 ≤ bpp * (i + 1) := Nat.mul_le_mul_left bpp (by omega)
      omega
    rw [List.getD_append_right _ _ _ _ (by omega)]
    have harith : bpp * (i + 1) + j - bpp = bpp * i + j := by
      have : bpp * (i + 1) = bpp * i + bpp := by ring
      omega
    rw [hx, harith]
    have hdvd2 : bpp ∣ (f.drop bpp).length := by
      simp only [List.length_drop]
      exact (Nat.dvd_sub' hdvd (Nat.dvd_refl bpp))
    have hk2 : bpp * i + j < (f.drop bpp).length := by
      simp only [List.length_drop]
      have : bpp * (i + 1) = bpp * i + bpp := by ring
      omega
    rw [subGo_getD bpp _ (f.drop bpp) hx hdvd2 i j hj hk2]
    rw [getD_drop_eq]
    have harith2 : bpp + (bpp * i + j) = bpp * (i + 1) + j := by ring
    rw [harith2]
    simp only [Nat.succ_ne_zero, if_false, Nat.add_sub_cancel]
    congr 1
    cases i with
    | zero =>
      simp only [Nat.mul_zero, Nat.zero_add]
      simp only [if_true]
      rw [List.getD_append _ _ _ _ (by omega)]
    | succ i =>
      simp only [Nat.succ_ne_zero, if_false]
      have hge2 : bpp ≤ bpp * (i + 1) + j := by
        have : bpp * 1 ≤ bpp * (i + 1) := Nat.mul_le_mul_left bpp (by omega)
        omega
      rw [List.getD_append_right _ _ _ _ (by omega)]
      rw [hx]
      have : bpp * (i + 1) + j - bpp = bpp * i + j := by
        have : bpp * (i + 1) = bpp * i + bpp := by ring
        omega
      rw [this]
      simp only [Nat.add_sub_cancel]
termination_by f.length
decreasing_by simp only [List.length_drop]; omega

/-- C5: for every BYTES_PER_PIXEL in 1..=8 and every payload with length
divisible by BYTES_PER_PIXEL, recon_sub_fallback writes, for each pixel
group left-to-right, x = filt + a byte-wise wrapping mod 256, where a is
the immediately preceding group already-reconstructed value in the same
row and is all zeros for the first group; in particular, at
BYTES_PER_PIXEL = 1 on payload [1,2,3,255,5,6,7,8] the result is
[1,3,6,5,10,16,23,31]. -/
theorem C5_recon_sub_functional :
    (∀ bpp f, 1 ≤ bpp → bpp ≤ 8 → bpp ∣ f.length →
      (recon_sub_fallback bpp f).length = f.length ∧
      ∀ i j, j < bpp → bpp * i + j < f.length →
        (recon_sub_fallback bpp f).getD (bpp * i + j) 0 =
          (f.getD (bpp * i + j) 0 +
            (if i = 0 then 0
             else (recon_sub_fallback bpp f).getD (bpp * (i - 1) + j) 0)) %
            256) ∧
    recon_sub_fallback 1 [1, 2, 3, 255, 5, 6, 7, 8] =
      [1, 3, 6, 5, 10, 16, 23, 31] := by
  constructor
  · intro bpp f h1 _h8 hdvd
    have ha : (List.replicate bpp 0).length = bpp := by simp
    refine ⟨subGo_length bpp _ f ha, ?_⟩
    intro i j hj hk
    have := subGo_getD bpp (List.replicate bpp 0) f ha hdvd i j hj hk
    rw [recon_sub_fallback, this]
    unfold wadd
    congr 1
    cases i with
    | zero => simp [getD_replicate_eq 0 bpp j hj]
    | succ i => simp
  · simp [recon_sub_fallback, subGo, subStep, wadd]

theorem avgGo_length (bpp : Nat) (a f p : List Nat) (ha : a.length = bpp) :
    (avgGo bpp a f p).length = f.length := by
  unfold avgGo
  split
  · rfl
  · rename_i h
    push_neg at h
    have hx : (List.zipWith3 avgStep (f.take bpp) a (p.take bpp)).length
        = bpp := by
      rw [length_zipWith3]
      simp [ha]; omega
    have ih := avgGo_length bpp _ (f.drop bpp) (p.drop bpp) hx
    simp only [List.length_append, hx, ih, List.length_drop]
    omega
termination_by f.length
decreasing_by simp only [List.length_drop]; omega

theorem avgTopGo_length (bpp : Nat) (a f : List Nat) (ha : a.length = bpp) :
    (avgTopGo bpp a f).length = f.length := by
  unfold avgTopGo
  split
  · rfl
  · rename_i h
    push_neg at h
    have hx : (List.zipWith avgTopStep (f.take bpp) a).length = bpp := by
      simp [ha]; omega
    have ih := avgTopGo_length bpp _ (f.drop bpp) hx
    simp only [List.length_append, hx, ih, List.length_drop]
    omega
termination_by f.length
decreasing_by simp only [List.length_drop]; omega

theorem paethGo_length (bpp : Nat) (a c f p : List Nat)
    (ha : a.length = bpp) (hc : c.length = bpp) :
    (paethGo bpp a c f p).length = f.length := by
  unfold paethGo
  split
  · rfl
  · rename_i h
    push_neg at h
    have hx : (List.zipWith4 paethStep (f.take bpp) a (p.take bpp) c).length
        = bpp := by
      rw [length_zipWith4]
      simp [ha, hc]; omega
    have hb : (p.take bpp).length = bpp := by simp; omega
    have ih := paethGo_length bpp _ (p.take bpp) (f.drop bpp) (p.drop bpp)
      hx hb
    simp only [List.length_append, hx, ih, List.length_drop]
    omega
termination_by f.length
decreasing_by simp only [List.length_drop]; omega

theorem avgGo_getD (bpp : Nat) (a f p : List Nat) (ha : a.length = bpp)
    (hdvd : bpp ∣ f.length) (hlen : f.length = p.length) (i j : Nat)
    (hj : j < bpp) (hk : bpp * i + j < f.length) :
    (avgGo bpp a f p).getD (bpp * i + j) 0 =
      avgStep (f.getD (bpp * i + j) 0)
        (if i = 0 then a.getD j 0
         else (avgGo bpp a f p).getD (bpp * (i - 1) + j) 0)
        (p.getD (bpp * i + j) 0) := by
  have hble : bpp ≤ f.length := by
    rcases hdvd with ⟨m, hm⟩
    rcases m with _ | m
    · omega
    · have : bpp * 1 ≤ bpp * (m + 1) := Nat.mul_le_mul_left bpp (by omega)
      omega
  rw [avgGo]
  rw [dif_neg (by push_neg; omega)]
  have hx : (List.zipWith3 avgStep (f.take bpp) a (p.take bpp)).length
      = bpp := by
    rw [length_zipWith3]
    simp [ha]; omega
  cases i with
  | zero =>
    simp only [if_pos rfl, Nat.mul_zero, Nat.zero_add]
    rw [List.getD_append _ _ _ _ (by omega)]
    rw [getD_zipWith3_eq _ _ _ _ _ (by simp; omega) (by omega)
      (by simp; omega)]
    rw [getD_take_eq _ _ _ hj, getD_take_eq _ _ _ hj]
    simp only [if_true]
  | succ i =>
    have hge : bpp ≤ bpp * (i + 1) + j := by
      have : bpp * 1 ≤ bpp * (i + 1) := Nat.mul_le_mul_left bpp (by omega)
      omega
    rw [List.getD_append_right _ _ _ _ (by omega)]
    have harith : bpp * (i + 1) + j - bpp = bpp * i + j := by
      have : bpp * (i + 1) = bpp * i + bpp := by ring
      omega
    rw [hx, harith]
    have hdvd2 : bpp ∣ (f.drop bpp).length := by
      simp only [List.length_drop]
      exact (Nat.dvd_sub' hdvd (Nat.dvd_refl bpp))
    have hlen2 : (f.drop bpp).length = (p.drop bpp).length := by
      simp only [List.length_drop]; omega
    have hk2 : bpp * i + j < (f.drop bpp).length := by
      simp only [List.length_drop]
      have : bpp * (i + 1) = bpp * i + bpp := by ring
      omega
    rw [avgGo_getD bpp _ (f.drop bpp) (p.drop bpp) hx hdvd2 hlen2 i j hj hk2]
    rw [getD_drop_eq, getD_drop_eq]
    have harith2 : bpp + (bpp * i + j) = bpp * (i + 1) + j := by ring
    rw [harith2]
    simp only [Nat.succ_ne_zero, if_false, Nat.add_sub_cancel]
    congr 1
    cases i with
    | zero =>
      simp only [Nat.mul_zero, Nat.zero_add]
      simp only [if_true]
      rw [List.getD_append _ _ _ _ (by omega)]
    | succ i =>
      simp only [Nat.succ_ne_zero, if_false]
      have hge2 : bpp ≤ bpp * (i + 1) + j := by
        have : bpp * 1 ≤ bpp * (i + 1) := Nat.mul_le_mul_left bpp (by omega)
        omega
      rw [List.getD_append_right _ _ _ _ (by omega)]
      rw [hx]
      have : bpp * (i + 1) + j - bpp = bpp * i + j := by
        have : bpp * (i + 1) = bpp * i + bpp := by ring
        omega
      rw [this]
      simp only [Nat.add_sub_cancel]
termination_by f.length
decreasing_by simp only [List.length_drop]; omega

theorem avgTopGo_getD (bpp : Nat) (a f : List Nat) (ha : a.length = bpp)
    (hdvd : bpp ∣ f.length) (i j : Nat) (hj : j < bpp)
    (hk : bpp * i + j < f.length) :
    (avgTopGo bpp a f).getD (bpp * i + j) 0 =
      avgTopStep (f.getD (bpp * i + j) 0)
        (if i = 0 then a.getD j 0
         else (avgTopGo bpp a f).getD (bpp * (i - 1) + j) 0) := by
  have hble : bpp ≤ f.length := by
    rcases hdvd with ⟨m, hm⟩
    rcases m with _ | m
    · omega
    · have : bpp * 1 ≤ bpp * (m + 1) := Nat.mul_le_mul_left bpp (by omega)
      omega
  rw [avgTopGo]
  rw [dif_neg (by push_neg; omega)]
  have hx : (List.zipWith avgTopStep (f.take bpp) a).length = bpp := by
    simp [ha]; omega
  cases i with
  | zero =>
    simp only [if_pos rfl, Nat.mul_zero, Nat.zero_add]
    rw [List.getD_append _ _ _ _ (by omega)]
    rw [getD_zipWith_eq _ _ _ _ (by simp; omega) (by omega)]
    rw [getD_take_eq _ _ _ hj]
    simp only [if_true]
  | succ i =>
    have hge : bpp ≤ bpp * (i + 1) + j := by
      have : bpp * 1 ≤ bpp * (i + 1) := Nat.mul_le_mul_left bpp (by omega)
      omega
    rw [List.getD_append_right _ _ _ _ (by omega)]
    have harith : bpp * (i + 1) + j - bpp = bpp * i + j := by
      have : bpp * (i + 1) = bpp * i + bpp := by ring
      omega
    rw [hx, harith]
    have hdvd2 : bpp ∣ (f.drop bpp).length := by
      simp only [List.length_drop]
      exact (Nat.dvd_sub' hdvd (Nat.dvd_refl bpp))
    have hk2 : bpp * i + j < (f.drop bpp).length := by
      simp only [List.length_drop]
      have : bpp * (i + 1) = bpp * i + bpp := by ring
      omega
    rw [avgTopGo_getD bpp _ (f.drop bpp) hx hdvd2 i j hj hk2]
    rw [getD_drop_eq]
    have harith2 : bpp + (bpp * i + j) = bpp * (i + 1) + j := by ring
    rw [harith2]
    simp only [Nat.succ_ne_zero, if_false, Nat.add_sub_cancel]
    congr 1
    cases i with
    | zero =>
      simp only [Nat.mul_zero, Nat.zero_add]
      simp only [if_true]
      rw [List.getD_append _ _ _ _ (by omega)]
    | succ i =>
      simp only [Nat.succ_ne_zero, if_false]
      have hge2 : bpp ≤ bpp * (i + 1) + j := by
        have : bpp * 1 ≤ bpp * (i + 1) := Nat.mul_le_mul_left bpp (by omega)
        omega
      rw [List.getD_append_right _ _ _ _ (by omega)]
      rw [hx]
      have : bpp * (i + 1) + j - bpp = bpp * i + j := by
        have : bpp * (i + 1) = bpp * i + bpp := by ring
        omega
      rw [this]
      simp only [Nat.add_sub_cancel]
termination_by f.length
decreasing_by simp only [List.length_drop]; omega

theorem paethGo_getD (bpp : Nat) (a c f p : List Nat) (ha : a.length = bpp)
    (hc : c.length = bpp) (hdvd : bpp ∣ f.length)
    (hlen : f.length = p.length) (i j : Nat) (hj : j < bpp)
    (hk : bpp * i + j < f.length) :
    (paethGo bpp a c f p).getD (bpp * i + j) 0 =
      paethStep (f.getD (bpp * i + j) 0)
        (if i = 0 then a.getD j 0
         else (paethGo bpp a c f p).getD (bpp * (i - 1) + j) 0)
        (p.getD (bpp * i + j) 0)
        (if i = 0 then c.getD j 0 else p.getD (bpp * (i - 1) + j) 0) := by
  have hble : bpp ≤ f.length := by
    rcases hdvd with ⟨m, hm⟩
    rcases m with _ | m
    · omega
    · have : bpp * 1 ≤ bpp * (m + 1) := Nat.mul_le_mul_left bpp (by omega)
      omega
  rw [paethGo]
  rw [dif_neg (by push_neg; omega)]
  have hx : (List.zipWith4 paethStep (f.take bpp) a (p.take bpp) c).length
      = bpp := by
    rw [length_zipWith4]
    simp [ha, hc]; omega
  have hbtake : (p.take bpp).length = bpp := by simp; omega
  cases i with
  | zero =>
    simp only [if_pos rfl, Nat.mul_zero, Nat.zero_add]
    rw [List.getD_append _ _ _ _ (by omega)]
    rw [getD_zipWith4_eq _ _ _ _ _ _ (by simp; omega) (by omega)
      (by simp; omega) (by omega)]
    rw [getD_take_eq _ _ _ hj, getD_take_eq _ _ _ hj]
    simp only [if_true]
  | succ i =>
    have hge : bpp ≤ bpp * (i + 1) + j := by
      have : bpp * 1 ≤ bpp * (i + 1) := Nat.mul_le_mul_left bpp (by omega)
      omega
    rw [List.getD_append_right _ _ _ _ (by omega)]
    have harith : bpp * (i + 1) + j - bpp = bpp * i + j := by
      have : bpp * (i + 1) = bpp * i + bpp := by ring
      omega
    rw [hx, harith]
    have hdvd2 : bpp ∣ (f.drop bpp).length := by
      simp only [List.length_drop]
      exact (Nat.dvd_sub' hdvd (Nat.dvd_refl bpp))
    have hlen2 : (f.drop bpp).length = (p.drop bpp).length := by
      simp only [List.length_drop]; omega
    have hk2 : bpp * i + j < (f.drop bpp).length := by
      simp only [List.length_drop]
      have : bpp * (i + 1) = bpp * i + bpp := by ring
      omega
    rw [paethGo_getD bpp _ (p.take bpp) (f.drop bpp) (p.drop bpp) hx hbtake
      hdvd2 hlen2 i j hj hk2]
    rw [getD_drop_eq, getD_drop_eq]
    have harith2 : bpp + (bpp * i + j) = bpp * (i + 1) + j := by ring
    rw [harith2]
    simp only [Nat.succ_ne_zero, if_false, Nat.add_sub_cancel]
    congr 1
    · cases i with
      | zero =>
        simp only [Nat.mul_zero, Nat.zero_add]
        simp only [if_true]
        rw [List.getD_append _ _ _ _ (by omega)]
      | succ i =>
        simp only [Nat.succ_ne_zero, if_false]
        have hge2 : bpp ≤ bpp * (i + 1) + j := by
          have : bpp * 1 ≤ bpp * (i + 1) := Nat.mul_le_mul_left bpp (by omega)
          omega
        rw [List.getD_append_right _ _ _ _ (by omega)]
        rw [hx]
        have : bpp * (i + 1) + j - bpp = bpp * i + j := by
          have : bpp * (i + 1) = bpp * i + bpp := by ring
          omega
        rw [this]
        simp only [Nat.add_sub_cancel]
    · cases i with
      | zero =>
        simp only [Nat.mul_zero, Nat.zero_add]
        simp only [if_true]
        rw [getD_take_eq _ _ _ hj]
      | succ i =>
        simp only [Nat.succ_ne_zero, if_false]
        rw [getD_drop_eq]
        congr 1
        have h3 : bpp * (i + 1 + 1) = bpp * (i + 1) + bpp := by ring
        have h4 : bpp * (i + 1) = bpp * i + bpp := by ring
        have h5 : bpp * (i + 1 - 1) = bpp * i := rfl
        omega
termination_by f.length
decreasing_by simp only [List.length_drop]; omega

theorem toI16_eq_self (z : Int) (h1 : -32768 ≤ z) (h2 : z < 32768) :
    toI16 z = z := by
  unfold toI16; omega

theorem toI16_zero : toI16 0 = 0 := by decide

theorem u8ofI16_ofNat (k : Nat) (h : k < 256) : u8ofI16 (k : Int) = k := by
  unfold u8ofI16 u16ofI16; omega

theorem satu8_ofNat (k : Nat) (h : k < 256) : sse4_1.satu8 (k : Int) = k := by
  unfold sse4_1.satu8
  split
  · omega
  · split
    · omega
    · omega

theorem satu8_zero : sse4_1.satu8 0 = 0 := by decide

theorem absI16_eq_abs (z : Int) (h1 : -32768 < z) (h2 : z < 32768) :
    absI16 z = |z| := by
  unfold absI16
  rw [toI16_eq_self _ (by omega) (by omega)]
  exact (Int.abs_eq_natAbs z).symm

theorem avgStep_eq (fv av bv : Nat) (ha : av < 256) (hb : bv < 256) :
    avgStep fv av bv = wadd fv ((av + bv) / 2) := by
  unfold avgStep
  rw [toI16_eq_self ((av : Int) + (bv : Int)) (by omega) (by omega)]
  have hcast : (av : Int) + bv = ((av + bv : Nat) : Int) := by push_cast; ring
  rw [hcast]
  rw [Int.tdiv_eq_ediv (by positivity) (by norm_num)]
  have hdiv : ((av + bv : Nat) : Int) / 2 = (((av + bv) / 2 : Nat) : Int) := by
    omega
  rw [hdiv, u8ofI16_ofNat _ (by omega)]

theorem paethStep_eq (fv av bv cv : Nat) (ha : av < 256) (hb : bv < 256)
    (hc : cv < 256) :
    paethStep fv av bv cv =
      wadd fv
        (if |(av : Int) + bv - cv - av| ≤ |(av : Int) + bv - cv - bv| ∧
            |(av : Int) + bv - cv - av| ≤ |(av : Int) + bv - cv - cv| then av
         else if |(av : Int) + bv - cv - bv| ≤ |(av : Int) + bv - cv - cv|
         then bv else cv) := by
  unfold paethStep
  dsimp only
  rw [toI16_eq_self ((av : Int) + bv) (by omega) (by omega)]
  rw [toI16_eq_self ((av : Int) + bv - cv) (by omega) (by omega)]
  rw [toI16_eq_self ((av : Int) + bv - cv - av) (by omega) (by omega)]
  rw [toI16_eq_self ((av : Int) + bv - cv - bv) (by omega) (by omega)]
  rw [toI16_eq_self ((av : Int) + bv - cv - cv) (by omega) (by omega)]
  rw [absI16_eq_abs ((av : Int) + bv - cv - av) (by omega) (by omega)]
  rw [absI16_eq_abs ((av : Int) + bv - cv - bv) (by omega) (by omega)]
  rw [absI16_eq_abs ((av : Int) + bv - cv - cv) (by omega) (by omega)]

theorem avgGo_getD_lt256 (bpp : Nat) (a f p : List Nat) (ha : a.length = bpp)
    (hdvd : bpp ∣ f.length) (hlen : f.length = p.length) (hb : 1 ≤ bpp)
    (k : Nat) (hk : k < f.length) :
    (avgGo bpp a f p).getD k 0 < 256 := by
  have hsplit : bpp * (k / bpp) + k % bpp = k := by
    have := Nat.div_add_mod k bpp
    omega
  rw [← hsplit]
  rw [avgGo_getD bpp a f p ha hdvd hlen (k / bpp) (k % bpp)
    (Nat.mod_lt _ (by omega)) (by omega)]
  unfold avgStep
  exact wadd_lt256 _ _

theorem paethGo_getD_lt256 (bpp : Nat) (a c f p : List Nat)
    (ha : a.length = bpp) (hc : c.length = bpp) (hdvd : bpp ∣ f.length)
    (hlen : f.length = p.length) (hb : 1 ≤ bpp) (k : Nat)
    (hk : k < f.length) :
    (paethGo bpp a c f p).getD k 0 < 256 := by
  have hsplit : bpp * (k / bpp) + k % bpp = k := by
    have := Nat.div_add_mod k bpp
    omega
  rw [← hsplit]
  rw [paethGo_getD bpp a c f p ha hc hdvd hlen (k / bpp) (k % bpp)
    (Nat.mod_lt _ (by omega)) (by omega)]
  unfold paethStep
  exact wadd_lt256 _ _

/-- C4: for every BYTES_PER_PIXEL in 1..=8 and rows of equal length
divisible by BYTES_PER_PIXEL, recon_average_fallback writes, for each
byte of each pixel group left-to-right, x = filt + floor((a + b) / 2)
with the final add wrapping mod 256, where a is the already-reconstructed
left group (zero for the first group) and b the same-column group of
previous_row; the i16 intermediate sum is exact, so the floor-divide
equals the mathematical floor of (a + b) / 2 (the right side below is
stated in exact natural-number arithmetic). -/
theorem C4_recon_average_functional :
    ∀ bpp f p, 1 ≤ bpp → bpp ≤ 8 → bpp ∣ f.length → f.length = p.length →
      (∀ v ∈ p, v < 256) →
      (recon_average_fallback bpp f p).length = f.length ∧
      ∀ i j, j < bpp → bpp * i + j < f.length →
        (recon_average_fallback bpp f p).getD (bpp * i + j) 0 =
          (f.getD (bpp * i + j) 0 +
            ((if i = 0 then 0
              else (recon_average_fallback bpp f p).getD (bpp * (i - 1) + j)
                0) +
             p.getD (bpp * i + j) 0) / 2) % 256 := by
  intro bpp f p h1 _h8 hdvd hlen hp
  have ha : (List.replicate bpp 0).length = bpp := by simp
  refine ⟨avgGo_length bpp _ f p ha, ?_⟩
  intro i j hj hk
  have hmain := avgGo_getD bpp (List.replicate bpp 0) f p ha hdvd hlen i j
    hj hk
  have hbv : p.getD (bpp * i + j) 0 < 256 :=
    getD_lt256 p hp _ (by omega)
  simp only [recon_average_fallback]
  rw [hmain]
  cases i with
  | zero =>
    norm_num
    rw [avgStep_eq _ _ _ (by omega) (by simpa using hbv)]
    unfold wadd
    omega
  | succ i =>
    simp only [Nat.succ_ne_zero, if_false, Nat.add_sub_cancel]
    have hik : bpp * i + j < f.length := by
      have : bpp * (i + 1) = bpp * i + bpp := by ring
      omega
    have hav : (avgGo bpp (List.replicate bpp 0) f p).getD (bpp * i + j) 0
        < 256 :=
      avgGo_getD_lt256 bpp _ f p ha hdvd hlen h1 _ hik
    rw [avgStep_eq _ _ _ hav hbv]
    unfold wadd
    rfl

/-- C2: for every BYTES_PER_PIXEL in 1..=8 and rows of equal length
divisible by BYTES_PER_PIXEL, recon_paeth_fallback writes, for each byte
position of each pixel group taken left-to-right, x = filt + predictor
wrapping mod 256, where p = a + b - c (exact, because the signed 16-bit
arithmetic of the source cannot overflow on byte inputs), pa = abs (p -
a), pb = abs (p - b), pc = abs (p - c), and the predictor is a if pa is
at most pb and at most pc, else b if pb is at most pc, else c; a is the
already-reconstructed group to the left (zero for the first group), b
the same-column group of previous_row, c the previous_row group one
pixel left (zero for the first group). -/
theorem C2_recon_paeth_functional :
    ∀ bpp f p, 1 ≤ bpp → bpp ≤ 8 → bpp ∣ f.length → f.length = p.length →
      (∀ v ∈ p, v < 256) →
      (recon_paeth_fallback bpp f p).length = f.length ∧
      ∀ i j, j < bpp → bpp * i + j < f.length →
        (recon_paeth_fallback bpp f p).getD (bpp * i + j) 0 =
          (f.getD (bpp * i + j) 0 +
            (let a : Nat := if i = 0 then 0
               else (recon_paeth_fallback bpp f p).getD (bpp * (i - 1) + j) 0
             let b : Nat := p.getD (bpp * i + j) 0
             let c : Nat := if i = 0 then 0
               else p.getD (bpp * (i - 1) + j) 0
             if |(a : Int) + b - c - a| ≤ |(a : Int) + b - c - b| ∧
                |(a : Int) + b - c - a| ≤ |(a : Int) + b - c - c| then a
             else if |(a : Int) + b - c - b| ≤ |(a : Int) + b - c - c|
             then b else c)) % 256 := by
  intro bpp f p h1 _h8 hdvd hlen hp
  have ha : (List.replicate bpp 0).length = bpp := by simp
  refine ⟨paethGo_length bpp _ _ f p ha ha, ?_⟩
  intro i j hj hk
  have hmain := paethGo_getD bpp (List.replicate bpp 0)
    (List.replicate bpp 0) f p ha ha hdvd hlen i j hj hk
  have hbv : p.getD (bpp * i + j) 0 < 256 :=
    getD_lt256 p hp _ (by omega)
  simp only [recon_paeth_fallback]
  rw [hmain]
  cases i with
  | zero =>
    norm_num
    rw [paethStep_eq _ _ _ _ (by omega) (by simpa using hbv) (by omega)]
    unfold wadd
    norm_num
  | succ i =>
    simp only [Nat.succ_ne_zero, if_false, Nat.add_sub_cancel]
    have hik : bpp * i + j < f.length := by
      have : bpp * (i + 1) = bpp * i + bpp := by ring
      omega
    have hav : (paethGo bpp (List.replicate bpp 0) (List.replicate bpp 0)
        f p).getD (bpp * i + j) 0 < 256 :=
      paethGo_getD_lt256 bpp _ _ f p ha ha hdvd hlen h1 _ hik
    have hcv : p.getD (bpp * i + j) 0 < 256 :=
      getD_lt256 p hp _ (by omega)
    rw [paethStep_eq _ _ _ _ hav hbv hcv]
    unfold wadd
    rfl

theorem mem_zipWith_lt256 (g : Nat → Nat → Nat) (hg : ∀ x y, g x y < 256)
    (l1 l2 : List Nat) : ∀ v ∈ List.zipWith g l1 l2, v < 256 := by
  induction l1 generalizing l2 with
  | nil => simp
  | cons x xs ih =>
    cases l2 with
    | nil => simp
    | cons y ys =>
      intro v hv
      rcases (by simpa using hv : v = g x y ∨ v ∈ List.zipWith g xs ys) with
        h | h
      · rw [h]; exact hg x y
      · exact ih ys v h

theorem mem_zipWith3_lt256 (g : Nat → Nat → Nat → Nat)
    (hg : ∀ x y z, g x y z < 256) (l1 l2 l3 : List Nat) :
    ∀ v ∈ List.zipWith3 g l1 l2 l3, v < 256 := by
  induction l1 generalizing l2 l3 with
  | nil => simp [List.zipWith3]
  | cons x xs ih =>
    cases l2 with
    | nil => simp [List.zipWith3]
    | cons y ys =>
      cases l3 with
      | nil => simp [List.zipWith3]
      | cons z zs =>
        intro v hv
        rcases (by simpa [List.zipWith3] using hv :
            v = g x y z ∨ v ∈ List.zipWith3 g xs ys zs) with h | h
        · rw [h]; exact hg x y z
        · exact ih ys zs v h

theorem mem_zipWith4_lt256 (g : Nat → Nat → Nat → Nat → Nat)
    (hg : ∀ x y z w, g x y z w < 256) (l1 l2 l3 l4 : List Nat) :
    ∀ v ∈ List.zipWith4 g l1 l2 l3 l4, v < 256 := by
  induction l1 generalizing l2 l3 l4 with
  | nil => simp [List.zipWith4]
  | cons x xs ih =>
    cases l2 with
    | nil => simp [List.zipWith4]
    | cons y ys =>
      cases l3 with
      | nil => simp [List.zipWith4]
      | cons z zs =>
        cases l4 with
        | nil => simp [List.zipWith4]
        | cons w ws =>
          intro v hv
          rcases (by simpa [List.zipWith4] using hv :
              v = g x y z w ∨ v ∈ List.zipWith4 g xs ys zs ws) with h | h
          · rw [h]; exact hg x y z w
          · exact ih ys zs ws v h

theorem paethStep_zero (fv av : Nat) (h : av < 256) :
    paethStep fv av 0 0 = subStep fv av := by
  rw [paethStep_eq fv av 0 0 h (by omega) (by omega)]
  simp [subStep, abs_nonneg]

theorem avgStep_zero (fv av : Nat) (h : av < 256) :
    avgStep fv av 0 = avgTopStep fv av := by
  rw [avgStep_eq fv av 0 h (by omega)]
  simp [avgTopStep]

theorem zipWith4_paeth_zero (ch aS : List Nat) (k : Nat)
    (haLt : ∀ v ∈ aS, v < 256) (hak : aS.length ≤ k) :
    List.zipWith4 paethStep ch aS (List.replicate k 0)
      (List.replicate k 0) = List.zipWith subStep ch aS := by
  induction ch generalizing aS k with
  | nil => simp [List.zipWith4]
  | cons x xs ih =>
    cases aS with
    | nil => simp [List.zipWith4]
    | cons a as =>
      cases k with
      | zero => simp at hak
      | succ k =>
        simp only [List.replicate, List.zipWith4, List.zipWith]
        rw [paethStep_zero x a (haLt a (by simp))]
        rw [ih as k (fun v hv => haLt v (by simp [hv])) (by simpa using hak)]

theorem zipWith3_avg_zero (ch aS : List Nat) (k : Nat)
    (haLt : ∀ v ∈ aS, v < 256) (hak : aS.length ≤ k) :
    List.zipWith3 avgStep ch aS (List.replicate k 0) =
      List.zipWith avgTopStep ch aS := by
  induction ch generalizing aS k with
  | nil => simp [List.zipWith3]
  | cons x xs ih =>
    cases aS with
    | nil => simp [List.zipWith3]
    | cons a as =>
      cases k with
      | zero => simp at hak
      | succ k =>
        simp only [List.replicate, List.zipWith3, List.zipWith]
        rw [avgStep_zero x a (haLt a (by simp))]
        rw [ih as k (fun v hv => haLt v (by simp [hv])) (by simpa using hak)]

theorem paethGo_zero_prev (bpp : Nat) (a f : List Nat) (n : Nat)
    (haLt : ∀ v ∈ a, v < 256) (haLen : a.length = bpp)
    (hn : n = f.length) :
    paethGo bpp a (List.replicate bpp 0) f (List.replicate n 0) =
      subGo bpp a f := by
  rw [paethGo, subGo]
  by_cases hg : bpp = 0 ∨ f.length < bpp
  · rw [dif_pos (by
      rcases hg with h | h
      · exact Or.inl h
      · exact Or.inr (Or.inl h)), dif_pos hg]
  · push_neg at hg
    rw [dif_neg (by simp only [List.length_replicate]; push_neg; omega),
      dif_neg (by push_neg; omega)]
    rw [List.take_replicate, List.drop_replicate]
    have hmin : min bpp n = bpp := by omega
    rw [hmin]
    rw [zipWith4_paeth_zero (f.take bpp) a bpp haLt (by omega)]
    have hx : ∀ v ∈ List.zipWith subStep (f.take bpp) a, v < 256 :=
      mem_zipWith_lt256 subStep (fun x y => wadd_lt256 x y) _ _
    have hxLen : (List.zipWith subStep (f.take bpp) a).length = bpp := by
      simp [haLen]; omega
    exact congrArg (List.zipWith subStep (f.take bpp) a ++ ·)
      (paethGo_zero_prev bpp _ (f.drop bpp) (n - bpp) hx hxLen
        (by simp; omega))
termination_by f.length
decreasing_by simp only [List.length_drop]; omega

theorem avgGo_zero_prev (bpp : Nat) (a f : List Nat) (n : Nat)
    (haLt : ∀ v ∈ a, v < 256) (haLen : a.length = bpp)
    (hn : n = f.length) :
    avgGo bpp a f (List.replicate n 0) = avgTopGo bpp a f := by
  rw [avgGo, avgTopGo]
  by_cases hg : bpp = 0 ∨ f.length < bpp
  · rw [dif_pos (by
      rcases hg with h | h
      · exact Or.inl h
      · exact Or.inr (Or.inl h)), dif_pos hg]
  · push_neg at hg
    rw [dif_neg (by simp only [List.length_replicate]; push_neg; omega),
      dif_neg (by push_neg; omega)]
    rw [List.take_replicate, List.drop_replicate]
    have hmin : min bpp n = bpp := by omega
    rw [hmin]
    rw [zipWith3_avg_zero (f.take bpp) a bpp haLt (by omega)]
    have hx : ∀ v ∈ List.zipWith avgTopStep (f.take bpp) a, v < 256 :=
      mem_zipWith_lt256 avgTopStep (fun x y => wadd_lt256 x _) _ _
    have hxLen : (List.zipWith avgTopStep (f.take bpp) a).length = bpp := by
      simp [haLen]; omega
    exact congrArg (List.zipWith avgTopStep (f.take bpp) a ++ ·)
      (avgGo_zero_prev bpp _ (f.drop bpp) (n - bpp) hx hxLen
        (by simp; omega))
termination_by f.length
decreasing_by simp only [List.length_drop]; omega

/-- C3: applying recon_paeth_fallback with an all-zero previous row of
equal length yields exactly the same payload as applying
recon_sub_fallback to the same payload, for every BYTES_PER_PIXEL and
every payload (in particular for BYTES_PER_PIXEL in 1..=8 with length
divisible by it); Paeth degenerates to Sub on the first row, not to a
no-op, as the second conjunct witnesses on a payload where Sub is not
the identity. -/
theorem C3_paeth_first_row_reduces_to_sub :
    (∀ bpp f, recon_paeth_fallback bpp f (List.replicate f.length 0) =
      recon_sub_fallback bpp f) ∧
    recon_paeth_fallback 1 [1, 1] (List.replicate 2 0) ≠ [1, 1] := by
  constructor
  · intro bpp f
    unfold recon_paeth_fallback recon_sub_fallback
    exact paethGo_zero_prev bpp (List.replicate bpp 0) f f.length
      (by intro v hv; rw [List.eq_of_mem_replicate hv]; omega) (by simp) rfl
  · intro hcontra
    have : recon_paeth_fallback 1 [1, 1] (List.replicate 2 0) = [1, 2] := by
      simp [recon_paeth_fallback, paethGo, paethStep, toI16, absI16, wadd,
        List.replicate, List.zipWith4]
    rw [this] at hcontra
    simp at hcontra

/-- C6: recon_average_top_fallback yields exactly the same payload as
recon_average_fallback applied with an all-zero previous row of equal
length, for every BYTES_PER_PIXEL and payload; equivalently, for
BYTES_PER_PIXEL in 1..=8 and divisible length it writes x = filt +
floor(a / 2) wrapping mod 256 for each byte, with a the
already-reconstructed left group (zero for the first group). -/
theorem C6_average_top_functional :
    (∀ bpp f, recon_average_top_fallback bpp f =
      recon_average_fallback bpp f (List.replicate f.length 0)) ∧
    (∀ bpp f, 1 ≤ bpp → bpp ≤ 8 → bpp ∣ f.length →
      (recon_average_top_fallback bpp f).length = f.length ∧
      ∀ i j, j < bpp → bpp * i + j < f.length →
        (recon_average_top_fallback bpp f).getD (bpp * i + j) 0 =
          (f.getD (bpp * i + j) 0 +
            (if i = 0 then 0
             else (recon_average_top_fallback bpp f).getD (bpp * (i - 1) + j)
               0) / 2) % 256) := by
  constructor
  · intro bpp f
    unfold recon_average_top_fallback recon_average_fallback
    exact (avgGo_zero_prev bpp (List.replicate bpp 0) f f.length
      (by intro v hv; rw [List.eq_of_mem_replicate hv]; omega) (by simp)
      rfl).symm
  · intro bpp f h1 _h8 hdvd
    have ha : (List.replicate bpp 0).length = bpp := by simp
    refine ⟨avgTopGo_length bpp _ f ha, ?_⟩
    intro i j hj hk
    have hmain := avgTopGo_getD bpp (List.replicate bpp 0) f ha hdvd i j
      hj hk
    simp only [recon_average_top_fallback]
    rw [hmain]
    cases i with
    | zero =>
      norm_num
      unfold avgTopStep wadd
      omega
    | succ i =>
      simp only [Nat.succ_ne_zero, if_false, Nat.add_sub_cancel]
      unfold avgTopStep wadd
      rfl

/-- C7: each of the four group kernels aborts with a panic whenever
BYTES_PER_PIXEL > 8, for every input slice, before any byte of
filtered_row is written (the error value of the checked model is the
untouched input row); for BYTES_PER_PIXEL in 1..=8 with the length
preconditions satisfied, the call completes without panic. -/
theorem C7_bpp_guard :
    ∀ bpp f p,
      (8 < bpp →
        recon_sub_fallback_checked bpp f = .error f ∧
        recon_average_fallback_checked bpp f p = .error f ∧
        recon_average_top_fallback_checked bpp f = .error f ∧
        recon_paeth_fallback_checked bpp f p = .error f) ∧
      (1 ≤ bpp → bpp ≤ 8 → bpp ∣ f.length → f.length = p.length →
        recon_sub_fallback_checked bpp f = .ok (recon_sub_fallback bpp f) ∧
        recon_average_fallback_checked bpp f p =
          .ok (recon_average_fallback bpp f p) ∧
        recon_average_top_fallback_checked bpp f =
          .ok (recon_average_top_fallback bpp f) ∧
        recon_paeth_fallback_checked bpp f p =
          .ok (recon_paeth_fallback bpp f p)) := by
  intro bpp f p
  constructor
  · intro h8
    have hcond : 8 < bpp ∨ bpp = 0 := Or.inl h8
    refine ⟨?_, ?_, ?_, ?_⟩
    · unfold recon_sub_fallback_checked; rw [if_pos hcond]
    · unfold recon_average_fallback_checked; rw [if_pos hcond]
    · unfold recon_average_top_fallback_checked; rw [if_pos hcond]
    · unfold recon_paeth_fallback_checked; rw [if_pos hcond]
  · intro h1 h8 _hdvd _hlen
    have hcond : ¬(8 < bpp ∨ bpp = 0) := by omega
    refine ⟨?_, ?_, ?_, ?_⟩
    · unfold recon_sub_fallback_checked; rw [if_neg hcond]
    · unfold recon_average_fallback_checked; rw [if_neg hcond]
    · unfold recon_average_top_fallback_checked; rw [if_neg hcond]
    · unfold recon_paeth_fallback_checked; rw [if_neg hcond]

theorem subGo_drop (bpp : Nat) (a f : List Nat) (ha : a.length = bpp) :
    (subGo bpp a f).drop (bpp * (f.length / bpp)) =
      f.drop (bpp * (f.length / bpp)) := by
  rw [subGo]
  split
  · rfl
  · rename_i h
    push_neg at h
    have hxlen : (List.zipWith subStep (f.take bpp) a).length = bpp := by
      simp [ha]; omega
    have hq : f.length / bpp = (f.length - bpp) / bpp + 1 := by
      have h0 : f.length - bpp + bpp = f.length := by omega
      calc f.length / bpp = (f.length - bpp + bpp) / bpp := by rw [h0]
        _ = (f.length - bpp) / bpp + 1 := Nat.add_div_right _ (by omega)
    have hmul : bpp * (f.length / bpp) =
        bpp + bpp * ((f.length - bpp) / bpp) := by
      rw [hq]; ring
    rw [hmul, ← List.drop_drop, ← List.drop_drop]
    rw [List.drop_left' hxlen]
    have ih := subGo_drop bpp (List.zipWith subStep (f.take bpp) a)
      (f.drop bpp) hxlen
    simpa [List.length_drop] using ih
termination_by f.length
decreasing_by simp only [List.length_drop]; omega

theorem avgTopGo_drop (bpp : Nat) (a f : List Nat) (ha : a.length = bpp) :
    (avgTopGo bpp a f).drop (bpp * (f.length / bpp)) =
      f.drop (bpp * (f.length / bpp)) := by
  rw [avgTopGo]
  split
  · rfl
  · rename_i h
    push_neg at h
    have hxlen : (List.zipWith avgTopStep (f.take bpp) a).length = bpp := by
      simp [ha]; omega
    have hq : f.length / bpp = (f.length - bpp) / bpp + 1 := by
      have h0 : f.length - bpp + bpp = f.length := by omega
      calc f.length / bpp = (f.length - bpp + bpp) / bpp := by rw [h0]
        _ = (f.length - bpp) / bpp + 1 := Nat.add_div_right _ (by omega)
    have hmul : bpp * (f.length / bpp) =
        bpp + bpp * ((f.length - bpp) / bpp) := by
      rw [hq]; ring
    rw [hmul, ← List.drop_drop, ← List.drop_drop]
    rw [List.drop_left' hxlen]
    have ih := avgTopGo_drop bpp (List.zipWith avgTopStep (f.take bpp) a)
      (f.drop bpp) hxlen
    simpa [List.length_drop] using ih
termination_by f.length
decreasing_by simp only [List.length_drop]; omega

theorem avgGo_drop (bpp : Nat) (a f p : List Nat) (ha : a.length = bpp) :
    (avgGo bpp a f p).drop (bpp * (f.length / bpp)) =
      f.drop (bpp * (f.length / bpp)) := by
  rw [avgGo]
  split
  · rfl
  · rename_i h
    push_neg at h
    have hxlen : (List.zipWith3 avgStep (f.take bpp) a (p.take bpp)).length
        = bpp := by
      rw [length_zipWith3]; simp [ha]; omega
    have hq : f.length / bpp = (f.length - bpp) / bpp + 1 := by
      have h0 : f.length - bpp + bpp = f.length := by omega
      calc f.length / bpp = (f.length - bpp + bpp) / bpp := by rw [h0]
        _ = (f.length - bpp) / bpp + 1 := Nat.add_div_right _ (by omega)
    have hmul : bpp * (f.length / bpp) =
        bpp + bpp * ((f.length - bpp) / bpp) := by
      rw [hq]; ring
    rw [hmul, ← List.drop_drop, ← List.drop_drop]
    rw [List.drop_left' hxlen]
    have ih := avgGo_drop bpp (List.zipWith3 avgStep (f.take bpp) a
      (p.take bpp)) (f.drop bpp) (p.drop bpp) hxlen
    simpa [List.length_drop] using ih
termination_by f.length
decreasing_by simp only [List.length_drop]; omega

theorem paethGo_drop (bpp : Nat) (a c f p : List Nat) (ha : a.length = bpp)
    (hc : c.length = bpp) :
    (paethGo bpp a c f p).drop (bpp * (f.length / bpp)) =
      f.drop (bpp * (f.length / bpp)) := by
  rw [paethGo]
  split
  · rfl
  · rename_i h
    push_neg at h
    have hxlen :
        (List.zipWith4 paethStep (f.take bpp) a (p.take bpp) c).length
        = bpp := by
      rw [length_zipWith4]; simp [ha, hc]; omega
    have hbtake : (p.take bpp).length = bpp := by simp; omega
    have hq : f.length / bpp = (f.length - bpp) / bpp + 1 := by
      have h0 : f.length - bpp + bpp = f.length := by omega
      calc f.length / bpp = (f.length - bpp + bpp) / bpp := by rw [h0]
        _ = (f.length - bpp) / bpp + 1 := Nat.add_div_right _ (by omega)
    have hmul : bpp * (f.length / bpp) =
        bpp + bpp * ((f.length - bpp) / bpp) := by
      rw [hq]; ring
    rw [hmul, ← List.drop_drop, ← List.drop_drop]
    rw [List.drop_left' hxlen]
    have ih := paethGo_drop bpp (List.zipWith4 paethStep (f.take bpp) a
      (p.take bpp) c) (p.take bpp) (f.drop bpp) (p.drop bpp) hxlen hbtake
    simpa [List.length_drop] using ih
termination_by f.length
decreasing_by simp only [List.length_drop]; omega

theorem recon_up_length (f p : List Nat) :
    (recon_up_fallback f p).length = f.length := by
  unfold recon_up_fallback
  simp
  omega

theorem recon_up_drop (f p : List Nat) :
    (recon_up_fallback f p).drop (min f.length p.length) =
      f.drop (min f.length p.length) := by
  unfold recon_up_fallback
  by_cases hple : p.length ≤ f.length
  · have hmin : min f.length p.length = p.length := by omega
    rw [hmin]
    rw [List.drop_left' (by simp; omega)]
  · have hmin : min f.length p.length = f.length := by omega
    rw [hmin]
    rw [List.drop_eq_nil_of_le (by simp; omega),
      List.drop_eq_nil_of_le (by omega)]

/-- C10: with debug assertions disabled, every fallback kernel writes
only within a well-defined prefix of filtered_row: the four group
kernels modify only the first BYTES_PER_PIXEL * (len / BYTES_PER_PIXEL)
bytes (length is preserved and everything from that prefix boundary on
is returned unchanged, so a trailing partial pixel group is untouched),
and recon_up_fallback modifies only the first min of the two lengths.
The previous row is consumed as an immutable value in this embedding,
matching the shared borrow it has in the source, so it is never
modified. -/
theorem C10_kernel_frame :
    ∀ bpp f p, 1 ≤ bpp → bpp ≤ 8 →
      ((recon_sub_fallback bpp f).length = f.length ∧
        (recon_sub_fallback bpp f).drop (bpp * (f.length / bpp)) =
          f.drop (bpp * (f.length / bpp))) ∧
      ((recon_average_fallback bpp f p).length = f.length ∧
        (recon_average_fallback bpp f p).drop (bpp * (f.length / bpp)) =
          f.drop (bpp * (f.length / bpp))) ∧
      ((recon_average_top_fallback bpp f).length = f.length ∧
        (recon_average_top_fallback bpp f).drop (bpp * (f.length / bpp)) =
          f.drop (bpp * (f.length / bpp))) ∧
      ((recon_paeth_fallback bpp f p).length = f.length ∧
        (recon_paeth_fallback bpp f p).drop (bpp * (f.length / bpp)) =
          f.drop (bpp * (f.length / bpp))) ∧
      ((recon_up_fallback f p).length = f.length ∧
        (recon_up_fallback f p).drop (min f.length p.length) =
          f.drop (min f.length p.length)) := by
  intro bpp f p _h1 _h8
  have ha : (List.replicate bpp 0).length = bpp := by simp
  exact ⟨⟨subGo_length bpp _ f ha, subGo_drop bpp _ f ha⟩,
    ⟨avgGo_length bpp _ f p ha, avgGo_drop bpp _ f p ha⟩,
    ⟨avgTopGo_length bpp _ f ha, avgTopGo_drop bpp _ f ha⟩,
    ⟨paethGo_length bpp _ _ f p ha ha, paethGo_drop bpp _ _ f p ha ha⟩,
    ⟨recon_up_length f p, recon_up_drop f p⟩⟩

theorem getD_row_len_ge (rows : List (List Nat))
    (h : ∀ r ∈ rows, 1 ≤ r.length) (i : Nat) (hi : i < rows.length) :
    1 ≤ (rows.getD i []).length := by
  induction rows generalizing i with
  | nil => simp at hi
  | cons r rest ih =>
    cases i with
    | zero => exact h r (by simp)
    | succ i =>
      simpa using ih (fun s hs => h s (by simp [hs])) i (by simpa using hi)

theorem unfilterRest_spec (bpp : Nat) (prev : List Nat)
    (rows : List (List Nat)) :
    (unfilterRest bpp prev rows).length = rows.length ∧
    ∀ i, i < rows.length → 1 ≤ (rows.getD i []).length →
      ((unfilterRest bpp prev rows).getD i []).headD 1 = 0 ∧
      (4 < (rows.getD i []).headD 0 →
        (unfilterRest bpp prev rows).getD i [] =
          0 :: (rows.getD i []).tail) := by
  induction rows generalizing prev with
  | nil => simp [unfilterRest]
  | cons r rest ih =>
    cases r with
    | nil =>
      refine ⟨by simp [unfilterRest, (ih prev).1], ?_⟩
      intro i hi hlen
      cases i with
      | zero => simp at hlen
      | succ i =>
        simpa [unfilterRest] using
          (ih prev).2 i (by simpa using hi) (by simpa using hlen)
    | cons tag payload =>
      refine ⟨by simp [unfilterRest,
        (ih (unfilterRow bpp prev tag payload)).1], ?_⟩
      intro i hi hlen
      cases i with
      | zero =>
        refine ⟨by simp [unfilterRest], ?_⟩
        intro htag
        simp only [List.getD_cons_zero, List.headD_cons] at htag
        simp only [unfilterRest, List.getD_cons_zero, List.tail_cons]
        rw [unfilterRow, if_neg (by omega), if_neg (by omega),
          if_neg (by omega), if_neg (by omega)]
      | succ i =>
        simpa [unfilterRest] using
          (ih (unfilterRow bpp prev tag payload)).2 i (by simpa using hi)
            (by simpa using hlen)

/-- C8 (modelled from the spec, the dispatcher being absent from src/):
the dispatcher unfilter_lines exists and, after processing, has set
every row tag byte to exactly 0 for every input tag value, and for tag
values outside 0-4 it leaves the row payload bytes unchanged. -/
theorem C8_dispatcher_retags :
    ∀ bpp rows i, (∀ r ∈ rows, 1 ≤ r.length) → i < rows.length →
      (unfilter_lines bpp rows).length = rows.length ∧
      ((unfilter_lines bpp rows).getD i []).headD 1 = 0 ∧
      (4 < (rows.getD i []).headD 0 →
        (unfilter_lines bpp rows).getD i [] =
          0 :: (rows.getD i []).tail) := by
  intro bpp rows i hne hi
  cases rows with
  | nil => simp at hi
  | cons r rest =>
    cases r with
    | nil =>
      have := hne [] (by simp)
      simp at this
    | cons tag payload =>
      refine ⟨by simp [unfilter_lines,
        (unfilterRest_spec bpp (unfilterFirstRow bpp tag payload) rest).1],
        ?_, ?_⟩
      · cases i with
        | zero => simp [unfilter_lines]
        | succ i =>
          have hi2 : i < rest.length := by simpa using hi
          have hlen2 : 1 ≤ (rest.getD i []).length :=
            getD_row_len_ge rest (fun s hs => hne s (by simp [hs])) i hi2
          simpa [unfilter_lines] using
            ((unfilterRest_spec bpp (unfilterFirstRow bpp tag payload)
              rest).2 i hi2 hlen2).1
      · intro htag
        cases i with
        | zero =>
          simp only [List.getD_cons_zero, List.headD_cons] at htag
          simp only [unfilter_lines, List.getD_cons_zero, List.tail_cons]
          rw [unfilterFirstRow, if_neg (by omega), if_neg (by omega),
            if_neg (by omega)]
        | succ i =>
          have hi2 : i < rest.length := by simpa using hi
          have hlen2 : 1 ≤ (rest.getD i []).length :=
            getD_row_len_ge rest (fun s hs => hne s (by simp [hs])) i hi2
          have := ((unfilterRest_spec bpp (unfilterFirstRow bpp tag payload)
            rest).2 i hi2 hlen2).2 (by simpa using htag)
          simpa [unfilter_lines] using this

/-- C9 counterexample: the claim says the sse2-level x86 family provides
Up, Average, AverageTop and Paeth kernels, but src/src/sse2.rs defines
only recon_sub. -/
theorem C9_counterexample :
    ¬ ("recon_up" ∈ sse2_module_ops ∧ "recon_average" ∈ sse2_module_ops ∧
       "recon_average_top" ∈ sse2_module_ops ∧
       "recon_paeth" ∈ sse2_module_ops) := by
  decide

/-- C9 amended: the neon module and the sse4.1-level x86 file each define
all five kernel operations, but the sse2-level x86 module defines only
recon_sub, and src/src/lib.rs declares only the neon and sse2 modules
(the sse4_1 file is not wired in as a module there). -/
theorem C9_amended_kernel_surface :
    neon_module_ops = ["recon_sub", "recon_up", "recon_average",
      "recon_average_top", "recon_paeth"] ∧
    sse4_1_module_ops = ["recon_sub", "recon_up", "recon_average",
      "recon_average_top", "recon_paeth"] ∧
    sse2_module_ops = ["recon_sub"] ∧
    lib_declared_modules = ["neon", "sse2"] :=
  ⟨rfl, rfl, rfl, rfl⟩

theorem zipWith_wadd_rep0 (k : Nat) :
    List.zipWith wadd (List.replicate k 0) (List.replicate k 0) =
      List.replicate k 0 := by
  induction k with
  | zero => rfl
  | succ k ih => simp [List.replicate, wadd, ih]

theorem neon_subGo_eq (bpp : Nat) (aS f : List Nat) (ha : aS.length = bpp) :
    neon.subGo bpp (aS ++ List.replicate (8 - bpp) 0) f = subGo bpp aS f := by
  rw [neon.subGo, subGo]
  by_cases hg : bpp = 0 ∨ f.length < bpp
  · rw [dif_pos hg, dif_pos hg]
  · push_neg at hg
    rw [dif_neg (by push_neg; omega), dif_neg (by push_neg; omega)]
    dsimp only
    have hx : neon.vadd_u8 (neon.vload8 bpp (f.take bpp))
        (aS ++ List.replicate (8 - bpp) 0) =
        List.zipWith subStep (f.take bpp) aS ++
          List.replicate (8 - bpp) 0 := by
      unfold neon.vload8 neon.vadd_u8
      rw [List.zipWith_append _ _ _ _ _ (by simp [ha]; omega)]
      rw [zipWith_wadd_rep0]
      rfl
    rw [hx]
    rw [List.take_left' (by simp [ha]; omega)]
    exact congrArg _ (neon_subGo_eq bpp _ (f.drop bpp) (by simp [ha]; omega))
termination_by f.length
decreasing_by simp only [List.length_drop]; omega

theorem sse2_subGo_eq (bpp : Nat) (aS f : List Nat) (ha : aS.length = bpp) :
    sse2.subGo bpp (aS ++ List.replicate (16 - bpp) 0) f = subGo bpp aS f := by
  rw [sse2.subGo, subGo]
  by_cases hg : bpp = 0 ∨ f.length < bpp
  · rw [dif_pos hg, dif_pos hg]
  · push_neg at hg
    rw [dif_neg (by push_neg; omega), dif_neg (by push_neg; omega)]
    dsimp only
    have hx : sse2.mm_add_epi8 (sse2.load16 bpp (f.take bpp))
        (aS ++ List.replicate (16 - bpp) 0) =
        List.zipWith subStep (f.take bpp) aS ++
          List.replicate (16 - bpp) 0 := by
      unfold sse2.load16 sse2.mm_add_epi8
      rw [List.zipWith_append _ _ _ _ _ (by simp [ha]; omega)]
      rw [zipWith_wadd_rep0]
      rfl
    rw [hx]
    rw [List.take_left' (by simp [ha]; omega)]
    exact congrArg _ (sse2_subGo_eq bpp _ (f.drop bpp) (by simp [ha]; omega))
termination_by f.length
decreasing_by simp only [List.length_drop]; omega

theorem sse4_1_subGo_eq (bpp : Nat) (aS f : List Nat)
    (ha : aS.length = bpp) :
    sse4_1.subGo bpp (aS ++ List.replicate (16 - bpp) 0) f =
      subGo bpp aS f := by
  rw [sse4_1.subGo, subGo]
  by_cases hg : bpp = 0 ∨ f.length < bpp
  · rw [dif_pos hg, dif_pos hg]
  · push_neg at hg
    rw [dif_neg (by push_neg; omega), dif_neg (by push_neg; omega)]
    dsimp only
    have hx : sse4_1.mm_add_epi8 (sse4_1.load16 bpp (f.take bpp))
        (aS ++ List.replicate (16 - bpp) 0) =
        List.zipWith subStep (f.take bpp) aS ++
          List.replicate (16 - bpp) 0 := by
      unfold sse4_1.load16 sse4_1.mm_add_epi8
      rw [List.zipWith_append _ _ _ _ _ (by simp [ha]; omega)]
      rw [zipWith_wadd_rep0]
      rfl
    rw [hx]
    rw [List.take_left' (by simp [ha]; omega)]
    exact congrArg _
      (sse4_1_subGo_eq bpp _ (f.drop bpp) (by simp [ha]; omega))
termination_by f.length
decreasing_by simp only [List.length_drop]; omega

theorem neon_avgTopGo_eq (bpp : Nat) (aS f : List Nat)
    (ha : aS.length = bpp) :
    neon.avgTopGo bpp (aS ++ List.replicate (8 - bpp) 0) f =
      avgTopGo bpp aS f := by
  rw [neon.avgTopGo, avgTopGo]
  by_cases hg : bpp = 0 ∨ f.length < bpp
  · rw [dif_pos hg, dif_pos hg]
  · push_neg at hg
    rw [dif_neg (by push_neg; omega), dif_neg (by push_neg; omega)]
    dsimp only
    have hx : neon.vadd_u8 (neon.vload8 bpp (f.take bpp))
        (neon.vshr1_u8 (aS ++ List.replicate (8 - bpp) 0)) =
        List.zipWith avgTopStep (f.take bpp) aS ++
          List.replicate (8 - bpp) 0 := by
      unfold neon.vload8 neon.vadd_u8 neon.vshr1_u8
      rw [List.map_append, List.map_replicate]
      norm_num
      rw [List.zipWith_append _ _ _ _ _ (by simp [ha]; omega)]
      rw [zipWith_wadd_rep0, List.zipWith_map_right]
      rfl
    rw [hx]
    rw [List.take_left' (by simp [ha]; omega)]
    exact congrArg _
      (neon_avgTopGo_eq bpp _ (f.drop bpp) (by simp [ha]; omega))
termination_by f.length
decreasing_by simp only [List.length_drop]; omega

theorem zipWith_half_rep0 (k : Nat) :
    List.zipWith (fun a b => (a + b) / 2) (List.replicate k 0)
      (List.replicate k (0 : Nat)) = List.replicate k 0 := by
  induction k with
  | zero => rfl
  | succ k ih => simp [List.replicate, ih]

theorem zipWith_wadd_half (ch aS bch : List Nat)
    (ha : ∀ v ∈ aS, v < 256) (hb : ∀ v ∈ bch, v < 256) :
    List.zipWith wadd ch (List.zipWith (fun a b => (a + b) / 2) aS bch) =
      List.zipWith3 avgStep ch aS bch := by
  induction ch generalizing aS bch with
  | nil => cases aS <;> cases bch <;> simp [List.zipWith3]
  | cons x xs ih =>
    cases aS with
    | nil => simp [List.zipWith3]
    | cons a as =>
      cases bch with
      | nil => simp [List.zipWith3]
      | cons b bs =>
        simp only [List.zipWith, List.zipWith3]
        rw [avgStep_eq x a b (ha a (by simp)) (hb b (by simp))]
        rw [ih as bs (fun v hv => ha v (by simp [hv]))
          (fun v hv => hb v (by simp [hv]))]

theorem neon_avgGo_eq (bpp : Nat) (aS f p : List Nat)
    (ha : aS.length = bpp) (haLt : ∀ v ∈ aS, v < 256)
    (hp : ∀ v ∈ p, v < 256) :
    neon.avgGo bpp (aS ++ List.replicate (8 - bpp) 0) f p =
      avgGo bpp aS f p := by
  rw [neon.avgGo, avgGo]
  by_cases hg : bpp = 0 ∨ f.length < bpp ∨ p.length < bpp
  · rw [dif_pos hg, dif_pos hg]
  · push_neg at hg
    rw [dif_neg (by push_neg; omega), dif_neg (by push_neg; omega)]
    dsimp only
    have hx : neon.vadd_u8 (neon.vload8 bpp (f.take bpp))
        (neon.vhadd_u8 (aS ++ List.replicate (8 - bpp) 0)
          (neon.vload8 bpp (p.take bpp))) =
        List.zipWith3 avgStep (f.take bpp) aS (p.take bpp) ++
          List.replicate (8 - bpp) 0 := by
      unfold neon.vload8 neon.vadd_u8 neon.vhadd_u8
      rw [List.zipWith_append _ _ _ _ _ (by simp [ha]; omega)]
      rw [zipWith_half_rep0]
      rw [List.zipWith_append _ _ _ _ _ (by simp [ha]; omega)]
      rw [zipWith_wadd_rep0]
      rw [zipWith_wadd_half (f.take bpp) aS (p.take bpp) haLt
        (fun v hv => hp v (List.take_subset bpp p hv))]
    rw [hx]
    rw [List.take_left' (by rw [length_zipWith3]; simp [ha]; omega)]
    exact congrArg _ (neon_avgGo_eq bpp _ (f.drop bpp) (p.drop bpp)
      (by rw [length_zipWith3]; simp [ha]; omega)
      (mem_zipWith3_lt256 avgStep (fun x y z => wadd_lt256 x _) _ _ _)
      (fun v hv => hp v (List.drop_subset bpp p hv)))
termination_by f.length
decreasing_by simp only [List.length_drop]; omega

theorem i16ofBytes_interleave (x : List Nat) (hx : ∀ v ∈ x, v < 256) :
    i16ofBytes (interleave x (List.replicate x.length 0)) =
      x.map (Nat.cast : Nat → Int) := by
  induction x with
  | nil => rfl
  | cons v vs ih =>
    simp only [List.length_cons, List.replicate, interleave, i16ofBytes,
      List.map]
    have hcast : ((v : Int) + 256 * ((0 : Nat) : Int)) = (v : Int) := by
      push_cast; ring
    rw [hcast, toI16_eq_self _ (by omega) (by
      have := hx v (by simp); omega)]
    rw [ih (fun w hw => hx w (by simp [hw]))]

theorem take8_pad16 (l : List Nat) (bpp : Nat) (hl : l.length = bpp)
    (h8 : bpp ≤ 8) :
    (l ++ List.replicate (16 - bpp) 0).take 8 =
      l ++ List.replicate (8 - bpp) 0 := by
  have h : (16 - bpp) = (8 - bpp) + 8 := by omega
  rw [h, List.replicate_add, ← List.append_assoc]
  exact List.take_left' (by simp [hl]; omega)

theorem zipWith_add16_rep0 (k : Nat) :
    List.zipWith (fun a b => toI16 (a + b)) (List.replicate k (0 : Int))
      (List.replicate k (0 : Int)) = List.replicate k 0 := by
  induction k with
  | zero => rfl
  | succ k ih => simp [List.replicate, ih, toI16_zero]

theorem sse_avg_lane (av bv : Nat) (ha : av < 256) (hb : bv < 256) :
    sse4_1.satu8 (toI16 ((av : Int) + bv) / 2) = (av + bv) / 2 := by
  rw [toI16_eq_self _ (by omega) (by omega)]
  have h1 : ((av : Int) + bv) = ((av + bv : Nat) : Int) := by
    push_cast; ring
  rw [h1]
  have h2 : (((av + bv : Nat) : Int)) / 2 = (((av + bv) / 2 : Nat) : Int) := by
    omega
  rw [h2]
  exact satu8_ofNat _ (by omega)

theorem sse_avgtop_lane (av : Nat) (ha : av < 256) :
    sse4_1.satu8 ((av : Int) / 2) = av / 2 := by
  have h2 : ((av : Int)) / 2 = (((av / 2 : Nat)) : Int) := by omega
  rw [h2]
  exact satu8_ofNat _ (by omega)

theorem sse_avg_chunk (ch aS bch : List Nat) (ha : ∀ v ∈ aS, v < 256)
    (hb : ∀ v ∈ bch, v < 256) :
    List.zipWith wadd ch
      (List.map sse4_1.satu8 (List.map (fun v => v / 2)
        (List.zipWith (fun a b => toI16 (a + b))
          (List.map (Nat.cast : Nat → Int) aS)
          (List.map (Nat.cast : Nat → Int) bch)))) =
      List.zipWith3 avgStep ch aS bch := by
  induction ch generalizing aS bch with
  | nil => cases aS <;> cases bch <;> simp [List.zipWith3]
  | cons x xs ih =>
    cases aS with
    | nil => simp [List.zipWith3]
    | cons a as =>
      cases bch with
      | nil => simp [List.zipWith3]
      | cons b bs =>
        simp only [List.map, List.zipWith, List.zipWith3]
        rw [sse_avg_lane a b (ha a (by simp)) (hb b (by simp))]
        rw [avgStep_eq x a b (ha a (by simp)) (hb b (by simp))]
        rw [ih as bs (fun v hv => ha v (by simp [hv]))
          (fun v hv => hb v (by simp [hv]))]

theorem sse_avgtop_chunk (ch aS : List Nat) (ha : ∀ v ∈ aS, v < 256) :
    List.zipWith wadd ch
      (List.map sse4_1.satu8 (List.map (fun v => v / 2)
        (List.map (Nat.cast : Nat → Int) aS))) =
      List.zipWith avgTopStep ch aS := by
  induction ch generalizing aS with
  | nil => simp
  | cons x xs ih =>
    cases aS with
    | nil => simp
    | cons a as =>
      simp only [List.map, List.zipWith]
      rw [sse_avgtop_lane a (ha a (by simp))]
      rw [ih as (fun v hv => ha v (by simp [hv]))]
      rfl

theorem map_half_rep0 (k : Nat) :
    List.map (fun v => v / 2) (List.replicate k (0 : Int)) =
      List.replicate k 0 := by
  rw [List.map_replicate]
  norm_num

theorem map_satu8_rep0 (k : Nat) :
    List.map sse4_1.satu8 (List.replicate k (0 : Int)) =
      List.replicate k 0 := by
  rw [List.map_replicate, satu8_zero]

theorem i16ofBytes_interleave8 (x : List Nat) (hx : ∀ v ∈ x, v < 256)
    (hlen : x.length = 8) :
    i16ofBytes (interleave x (List.replicate 8 0)) =
      List.map (Nat.cast : Nat → Int) x := by
  have h := i16ofBytes_interleave x hx
  rw [hlen] at h
  exact h

theorem sse4_1_avgGo_eq (bpp : Nat) (h8 : bpp ≤ 8) (aS f p : List Nat)
    (ha : aS.length = bpp) (haLt : ∀ v ∈ aS, v < 256)
    (hp : ∀ v ∈ p, v < 256) :
    sse4_1.avgGo bpp (List.map (Nat.cast : Nat → Int) aS ++
      List.replicate (8 - bpp) 0) f p = avgGo bpp aS f p := by
  rw [sse4_1.avgGo, avgGo]
  by_cases hg : bpp = 0 ∨ f.length < bpp ∨ p.length < bpp
  · rw [dif_pos hg, dif_pos hg]
  · push_neg at hg
    rw [dif_neg (by push_neg; omega), dif_neg (by push_neg; omega)]
    dsimp only
    have hbv : (p.take bpp).length = bpp := by simp; omega
    have hadd : sse4_1.mm_add_epi16
        (List.map (Nat.cast : Nat → Int) aS ++ List.replicate (8 - bpp) 0)
        ((p.take bpp).map (Nat.cast : Nat → Int) ++
          List.replicate (8 - bpp) 0) =
        List.zipWith (fun a b => toI16 (a + b))
          (List.map (Nat.cast : Nat → Int) aS)
          (List.map (Nat.cast : Nat → Int) (p.take bpp)) ++
          List.replicate (8 - bpp) 0 := by
      unfold sse4_1.mm_add_epi16
      rw [List.zipWith_append _ _ _ _ _ (by simp [ha, hbv]; omega)]
      rw [zipWith_add16_rep0]
    rw [hadd]
    have hsrai : sse4_1.mm_srai1_epi16
        (List.zipWith (fun a b => toI16 (a + b))
          (List.map (Nat.cast : Nat → Int) aS)
          (List.map (Nat.cast : Nat → Int) (p.take bpp)) ++
          List.replicate (8 - bpp) 0) =
        List.map (fun v => v / 2)
          (List.zipWith (fun a b => toI16 (a + b))
            (List.map (Nat.cast : Nat → Int) aS)
            (List.map (Nat.cast : Nat → Int) (p.take bpp))) ++
          List.replicate (8 - bpp) 0 := by
      unfold sse4_1.mm_srai1_epi16
      rw [List.map_append, map_half_rep0]
    rw [hsrai]
    have hpack : sse4_1.mm_packus_epi16
        (List.map (fun v => v / 2)
          (List.zipWith (fun a b => toI16 (a + b))
            (List.map (Nat.cast : Nat → Int) aS)
            (List.map (Nat.cast : Nat → Int) (p.take bpp))) ++
          List.replicate (8 - bpp) 0) (List.replicate 8 0) =
        List.map sse4_1.satu8 (List.map (fun v => v / 2)
          (List.zipWith (fun a b => toI16 (a + b))
            (List.map (Nat.cast : Nat → Int) aS)
            (List.map (Nat.cast : Nat → Int) (p.take bpp)))) ++
          List.replicate (16 - bpp) 0 := by
      unfold sse4_1.mm_packus_epi16
      rw [List.map_append, map_satu8_rep0, map_satu8_rep0]
      rw [List.append_assoc, ← List.replicate_add]
      have hlen16 : (8 - bpp) + 8 = 16 - bpp := by omega
      rw [hlen16]
    rw [hpack]
    have haddu8 : sse4_1.mm_add_epi8 (sse4_1.load16 bpp (f.take bpp))
        (List.map sse4_1.satu8 (List.map (fun v => v / 2)
          (List.zipWith (fun a b => toI16 (a + b))
            (List.map (Nat.cast : Nat → Int) aS)
            (List.map (Nat.cast : Nat → Int) (p.take bpp)))) ++
          List.replicate (16 - bpp) 0) =
        List.zipWith3 avgStep (f.take bpp) aS (p.take bpp) ++
          List.replicate (16 - bpp) 0 := by
      unfold sse4_1.mm_add_epi8 sse4_1.load16
      rw [List.zipWith_append _ _ _ _ _ (by simp [ha, hbv]; omega)]
      rw [zipWith_wadd_rep0]
      rw [sse_avg_chunk (f.take bpp) aS (p.take bpp) haLt
        (fun v hv => hp v (List.take_subset bpp p hv))]
    rw [haddu8]
    rw [List.take_left' (by rw [length_zipWith3]; simp [ha]; omega)]
    have hxLow : (List.zipWith3 avgStep (f.take bpp) aS (p.take bpp)).length
        = bpp := by
      rw [length_zipWith3]; simp [ha]; omega
    have hxLt : ∀ v ∈ List.zipWith3 avgStep (f.take bpp) aS (p.take bpp),
        v < 256 :=
      mem_zipWith3_lt256 avgStep (fun x y z => wadd_lt256 x _) _ _ _
    have ha2 : i16ofBytes (sse4_1.mm_unpacklo_epi8
        (List.zipWith3 avgStep (f.take bpp) aS (p.take bpp) ++
          List.replicate (16 - bpp) 0) (List.replicate 16 0)) =
        List.map (Nat.cast : Nat → Int)
          (List.zipWith3 avgStep (f.take bpp) aS (p.take bpp)) ++
          List.replicate (8 - bpp) 0 := by
      unfold sse4_1.mm_unpacklo_epi8
      rw [take8_pad16 _ bpp hxLow h8]
      rw [List.take_replicate]
      have hmin : min 8 16 = 8 := by norm_num
      rw [hmin]
      rw [i16ofBytes_interleave8 _ (by
        intro v hv
        rcases List.mem_append.mp hv with h | h
        · exact hxLt v h
        · rw [List.eq_of_mem_replicate h]; omega) (by simp [hxLow]; omega)]
      rw [List.map_append, List.map_replicate]
      norm_num
    rw [ha2]
    exact congrArg _ (sse4_1_avgGo_eq bpp h8 _ (f.drop bpp) (p.drop bpp)
      hxLow hxLt (fun v hv => hp v (List.drop_subset bpp p hv)))
termination_by f.length
decreasing_by simp only [List.length_drop]; omega

theorem sse4_1_avgTopGo_eq (bpp : Nat) (h8 : bpp ≤ 8) (aS f : List Nat)
    (ha : aS.length = bpp) (haLt : ∀ v ∈ aS, v < 256) :
    sse4_1.avgTopGo bpp (List.map (Nat.cast : Nat → Int) aS ++
      List.replicate (8 - bpp) 0) f = avgTopGo bpp aS f := by
  rw [sse4_1.avgTopGo, avgTopGo]
  by_cases hg : bpp = 0 ∨ f.length < bpp
  · rw [dif_pos hg, dif_pos hg]
  · push_neg at hg
    rw [dif_neg (by push_neg; omega), dif_neg (by push_neg; omega)]
    dsimp only
    have hsrai : sse4_1.mm_srai1_epi16
        (List.map (Nat.cast : Nat → Int) aS ++
          List.replicate (8 - bpp) 0) =
        List.map (fun v => v / 2) (List.map (Nat.cast : Nat → Int) aS) ++
          List.replicate (8 - bpp) 0 := by
      unfold sse4_1.mm_srai1_epi16
      rw [List.map_append, map_half_rep0]
    rw [hsrai]
    have hpack : sse4_1.mm_packus_epi16
        (List.map (fun v => v / 2) (List.map (Nat.cast : Nat → Int) aS) ++
          List.replicate (8 - bpp) 0) (List.replicate 8 0) =
        List.map sse4_1.satu8
          (List.map (fun v => v / 2)
            (List.map (Nat.cast : Nat → Int) aS)) ++
          List.replicate (16 - bpp) 0 := by
      unfold sse4_1.mm_packus_epi16
      rw [List.map_append, map_satu8_rep0, map_satu8_rep0]
      rw [List.append_assoc, ← List.replicate_add]
      have hlen16 : (8 - bpp) + 8 = 16 - bpp := by omega
      rw [hlen16]
    rw [hpack]
    have haddu8 : sse4_1.mm_add_epi8 (sse4_1.load16 bpp (f.take bpp))
        (List.map sse4_1.satu8
          (List.map (fun v => v / 2)
            (List.map (Nat.cast : Nat → Int) aS)) ++
          List.replicate (16 - bpp) 0) =
        List.zipWith avgTopStep (f.take bpp) aS ++
          List.replicate (16 - bpp) 0 := by
      unfold sse4_1.mm_add_epi8 sse4_1.load16
      rw [List.zipWith_append _ _ _ _ _ (by simp [ha]; omega)]
      rw [zipWith_wadd_rep0]
      rw [sse_avgtop_chunk (f.take bpp) aS haLt]
    rw [haddu8]
    rw [List.take_left' (by simp [ha]; omega)]
    have hxLow : (List.zipWith avgTopStep (f.take bpp) aS).length = bpp := by
      simp [ha]; omega
    have hxLt : ∀ v ∈ List.zipWith avgTopStep (f.take bpp) aS, v < 256 :=
      mem_zipWith_lt256 avgTopStep (fun x y => wadd_lt256 x _) _ _
    have ha2 : i16ofBytes (sse4_1.mm_unpacklo_epi8
        (List.zipWith avgTopStep (f.take bpp) aS ++
          List.replicate (16 - bpp) 0) (List.replicate 16 0)) =
        List.map (Nat.cast : Nat → Int)
          (List.zipWith avgTopStep (f.take bpp) aS) ++
          List.replicate (8 - bpp) 0 := by
      unfold sse4_1.mm_unpacklo_epi8
      rw [take8_pad16 _ bpp hxLow h8]
      rw [List.take_replicate]
      have hmin : min 8 16 = 8 := by norm_num
      rw [hmin]
      rw [i16ofBytes_interleave8 _ (by
        intro v hv
        rcases List.mem_append.mp hv with h | h
        · exact hxLt v h
        · rw [List.eq_of_mem_replicate h]; omega) (by simp [hxLow]; omega)]
      rw [List.map_append, List.map_replicate]
      norm_num
    rw [ha2]
    exact congrArg _ (sse4_1_avgTopGo_eq bpp h8 _ (f.drop bpp) hxLow hxLt)
termination_by f.length
decreasing_by simp only [List.length_drop]; omega

theorem zipWith3_append {α β γ δ : Type} (g : α → β → γ → δ)
    (l1 : List α) (l2 : List β) (l3 : List γ) (l1b : List α) (l2b : List β)
    (l3b : List γ) (h1 : l1.length = l2.length)
    (h2 : l1.length = l3.length) :
    List.zipWith3 g (l1 ++ l1b) (l2 ++ l2b) (l3 ++ l3b) =
      List.zipWith3 g l1 l2 l3 ++ List.zipWith3 g l1b l2b l3b := by
  induction l1 generalizing l2 l3 with
  | nil =>
    cases l2 with
    | nil =>
      cases l3 with
      | nil => rfl
      | cons z zs => simp at h2
    | cons y ys => simp at h1
  | cons x xs ih =>
    cases l2 with
    | nil => simp at h1
    | cons y ys =>
      cases l3 with
      | nil => simp at h2
      | cons z zs =>
        exact congrArg (g x y z :: ·)
          (ih ys zs (by simpa using h1) (by simpa using h2))

theorem vaddq_s16_pad (x y : List Int) (h : x.length = y.length) (k : Nat) :
    neon.vaddq_s16 (x ++ List.replicate k 0) (y ++ List.replicate k 0) =
      neon.vaddq_s16 x y ++ List.replicate k 0 := by
  unfold neon.vaddq_s16
  rw [List.zipWith_append _ _ _ _ _ h, zipWith_add16_rep0]

theorem zipWith_sub16_rep0 (k : Nat) :
    List.zipWith (fun a b => toI16 (a - b)) (List.replicate k (0 : Int))
      (List.replicate k (0 : Int)) = List.replicate k 0 := by
  induction k with
  | zero => rfl
  | succ k ih => simp [List.replicate, ih, toI16_zero]

theorem vsubq_s16_pad (x y : List Int) (h : x.length = y.length) (k : Nat) :
    neon.vsubq_s16 (x ++ List.replicate k 0) (y ++ List.replicate k 0) =
      neon.vsubq_s16 x y ++ List.replicate k 0 := by
  unfold neon.vsubq_s16
  rw [List.zipWith_append _ _ _ _ _ h, zipWith_sub16_rep0]

theorem absI16_zero : absI16 0 = 0 := by decide

theorem vabsq_s16_pad (x : List Int) (k : Nat) :
    neon.vabsq_s16 (x ++ List.replicate k 0) =
      neon.vabsq_s16 x ++ List.replicate k 0 := by
  unfold neon.vabsq_s16
  rw [List.map_append, List.map_replicate, absI16_zero]

theorem zipWith_cle_rep0 (k : Nat) :
    List.zipWith (fun a b => decide (a ≤ b)) (List.replicate k (0 : Int))
      (List.replicate k (0 : Int)) = List.replicate k true := by
  induction k with
  | zero => rfl
  | succ k ih => simp [List.replicate, ih]

theorem vcleq_s16_pad (x y : List Int) (h : x.length = y.length) (k : Nat) :
    neon.vcleq_s16 (x ++ List.replicate k 0) (y ++ List.replicate k 0) =
      neon.vcleq_s16 x y ++ List.replicate k true := by
  unfold neon.vcleq_s16
  rw [List.zipWith_append _ _ _ _ _ h, zipWith_cle_rep0]

theorem zipWith_and_repT (k : Nat) :
    List.zipWith and (List.replicate k true) (List.replicate k true) =
      List.replicate k true := by
  induction k with
  | zero => rfl
  | succ k ih => simp [List.replicate, ih]

theorem vandq_u16_pad (x y : List Bool) (h : x.length = y.length) (k : Nat) :
    neon.vandq_u16 (x ++ List.replicate k true)
      (y ++ List.replicate k true) =
      neon.vandq_u16 x y ++ List.replicate k true := by
  unfold neon.vandq_u16
  rw [List.zipWith_append _ _ _ _ _ h, zipWith_and_repT]

theorem zipWith3_sel_repT (k : Nat) :
    List.zipWith3 (fun mv xv yv => if mv then xv else yv)
      (List.replicate k true) (List.replicate k (0 : Int))
      (List.replicate k (0 : Int)) = List.replicate k 0 := by
  induction k with
  | zero => rfl
  | succ k ih => simp [List.replicate, List.zipWith3, ih]

theorem vbslq_s16_pad (m : List Bool) (x y : List Int)
    (h1 : m.length = x.length) (h2 : m.length = y.length) (k : Nat) :
    neon.vbslq_s16 (m ++ List.replicate k true) (x ++ List.replicate k 0)
      (y ++ List.replicate k 0) =
      neon.vbslq_s16 m x y ++ List.replicate k 0 := by
  unfold neon.vbslq_s16
  rw [zipWith3_append _ _ _ _ _ _ _ h1 h2, zipWith3_sel_repT]

theorem evens_flatMap (v : List Int) :
    evens (v.flatMap bytesLoHi) = List.map u8ofI16 v := by
  induction v with
  | nil => rfl
  | cons z zs ih =>
    have hstep : evens ((z :: zs).flatMap bytesLoHi) =
        u8ofI16 z :: evens (zs.flatMap bytesLoHi) := rfl
    rw [hstep, ih]
    rfl

theorem u8ofI16_zero : u8ofI16 0 = 0 := by decide

theorem length_flatMap_bytesLoHi (v : List Int) :
    (v.flatMap bytesLoHi).length = 2 * v.length := by
  induction v with
  | nil => rfl
  | cons z zs ih =>
    simp only [List.flatMap_cons, bytesLoHi, List.length_append,
      List.length_cons, List.length_nil, List.length_cons, ih]
    omega

theorem narrow_low (v : List Int) (hv : v.length = 8) :
    neon.vget_low_u8 (neon.vuzp1q_u8 (neon.vreinterpretq_u8_s16 v)
      (List.replicate 16 0)) = List.map u8ofI16 v := by
  unfold neon.vget_low_u8 neon.vuzp1q_u8 neon.vreinterpretq_u8_s16
  have hlen : (evens (v.flatMap bytesLoHi)).length = 8 := by
    rw [evens_flatMap]
    simp [hv]
  rw [List.take_append_of_le_length (by omega)]
  rw [← hlen, List.take_length]
  exact evens_flatMap v

theorem widen_low (x : List Nat) (hx8 : x.length = 8)
    (hxLt : ∀ v ∈ x, v < 256) :
    neon.vreinterpretq_s16_u8 (neon.vzip1q_u8
      (neon.vcombine_u8 x (List.replicate 8 0)) (List.replicate 16 0)) =
      List.map (Nat.cast : Nat → Int) x := by
  unfold neon.vreinterpretq_s16_u8 neon.vzip1q_u8 neon.vcombine_u8
  rw [List.take_replicate]
  have hmin : min 8 16 = 8 := by norm_num
  rw [hmin]
  rw [List.take_append_of_le_length (by omega)]
  rw [show x.take 8 = x from by rw [← hx8, List.take_length]]
  exact i16ofBytes_interleave8 x hxLt hx8

theorem neon_paeth_lane (fv av bv cv : Nat) (ha : av < 256) (hb : bv < 256)
    (hc : cv < 256) :
    wadd fv (u8ofI16
      (if (and (decide (absI16 (toI16 (toI16 (toI16 ((av : Int) + bv) - cv) - av)) ≤ absI16 (toI16 (toI16 (toI16 ((av : Int) + bv) - cv) - bv)))) (decide (absI16 (toI16 (toI16 (toI16 ((av : Int) + bv) - cv) - av)) ≤ absI16 (toI16 (toI16 (toI16 ((av : Int) + bv) - cv) - cv)))))
        then (av : Int)
        else if decide (absI16 (toI16 (toI16 (toI16 ((av : Int) + bv) - cv) - bv)) ≤ absI16 (toI16 (toI16 (toI16 ((av : Int) + bv) - cv) - cv))) then (bv : Int) else (cv : Int))) =
      paethStep fv av bv cv := by
  rw [paethStep_eq fv av bv cv ha hb hc]
  rw [toI16_eq_self ((av : Int) + bv) (by omega) (by omega)]
  rw [toI16_eq_self ((av : Int) + bv - cv) (by omega) (by omega)]
  rw [toI16_eq_self ((av : Int) + bv - cv - av) (by omega) (by omega)]
  rw [toI16_eq_self ((av : Int) + bv - cv - bv) (by omega) (by omega)]
  rw [toI16_eq_self ((av : Int) + bv - cv - cv) (by omega) (by omega)]
  rw [absI16_eq_abs ((av : Int) + bv - cv - av) (by omega) (by omega)]
  rw [absI16_eq_abs ((av : Int) + bv - cv - bv) (by omega) (by omega)]
  rw [absI16_eq_abs ((av : Int) + bv - cv - cv) (by omega) (by omega)]
  simp only [Bool.and_eq_true, decide_eq_true_eq]
  split_ifs with h1 h2
  · rw [u8ofI16_ofNat av ha]
  · rw [u8ofI16_ofNat bv hb]
  · rw [u8ofI16_ofNat cv hc]

theorem neon_paeth_chunk (ch aS bch cS : List Nat)
    (haLt : ∀ v ∈ aS, v < 256) (hbLt : ∀ v ∈ bch, v < 256)
    (hcLt : ∀ v ∈ cS, v < 256) :
    List.zipWith wadd ch (List.map u8ofI16 (neon.vbslq_s16 (neon.vandq_u16 (neon.vcleq_s16 (neon.vabsq_s16 (neon.vsubq_s16 (neon.vsubq_s16 (neon.vaddq_s16 (List.map (Nat.cast : Nat → Int) aS) (List.map (Nat.cast : Nat → Int) bch)) (List.map (Nat.cast : Nat → Int) cS)) (List.map (Nat.cast : Nat → Int) aS))) (neon.vabsq_s16 (neon.vsubq_s16 (neon.vsubq_s16 (neon.vaddq_s16 (List.map (Nat.cast : Nat → Int) aS) (List.map (Nat.cast : Nat → Int) bch)) (List.map (Nat.cast : Nat → Int) cS)) (List.map (Nat.cast : Nat → Int) bch)))) (neon.vcleq_s16 (neon.vabsq_s16 (neon.vsubq_s16 (neon.vsubq_s16 (neon.vaddq_s16 (List.map (Nat.cast : Nat → Int) aS) (List.map (Nat.cast : Nat → Int) bch)) (List.map (Nat.cast : Nat → Int) cS)) (List.map (Nat.cast : Nat → Int) aS))) (neon.vabsq_s16 (neon.vsubq_s16 (neon.vsubq_s16 (neon.vaddq_s16 (List.map (Nat.cast : Nat → Int) aS) (List.map (Nat.cast : Nat → Int) bch)) (List.map (Nat.cast : Nat → Int) cS)) (List.map (Nat.cast : Nat → Int) cS))))) (List.map (Nat.cast : Nat → Int) aS) (neon.vbslq_s16 (neon.vcleq_s16 (neon.vabsq_s16 (neon.vsubq_s16 (neon.vsubq_s16 (neon.vaddq_s16 (List.map (Nat.cast : Nat → Int) aS) (List.map (Nat.cast : Nat → Int) bch)) (List.map (Nat.cast : Nat → Int) cS)) (List.map (Nat.cast : Nat → Int) bch))) (neon.vabsq_s16 (neon.vsubq_s16 (neon.vsubq_s16 (neon.vaddq_s16 (List.map (Nat.cast : Nat → Int) aS) (List.map (Nat.cast : Nat → Int) bch)) (List.map (Nat.cast : Nat → Int) cS)) (List.map (Nat.cast : Nat → Int) cS)))) (List.map (Nat.cast : Nat → Int) bch) (List.map (Nat.cast : Nat → Int) cS)))) =
      List.zipWith4 paethStep ch aS bch cS := by
  induction ch generalizing aS bch cS with
  | nil => rfl
  | cons x xs ih =>
    cases aS with
    | nil => simp [neon.vaddq_s16, neon.vsubq_s16, neon.vabsq_s16, neon.vcleq_s16, neon.vandq_u16, neon.vbslq_s16, List.map, List.zipWith, List.zipWith3, List.zipWith4]
    | cons a as =>
      cases bch with
      | nil => simp [neon.vaddq_s16, neon.vsubq_s16, neon.vabsq_s16, neon.vcleq_s16, neon.vandq_u16, neon.vbslq_s16, List.map, List.zipWith, List.zipWith3, List.zipWith4]
      | cons b bs =>
        cases cS with
        | nil => simp [neon.vaddq_s16, neon.vsubq_s16, neon.vabsq_s16, neon.vcleq_s16, neon.vandq_u16, neon.vbslq_s16, List.map, List.zipWith, List.zipWith3, List.zipWith4]
        | cons c cs =>
          simp only [neon.vaddq_s16, neon.vsubq_s16, neon.vabsq_s16, neon.vcleq_s16, neon.vandq_u16, neon.vbslq_s16, List.map, List.zipWith, List.zipWith3, List.zipWith4] at ih ⊢
          rw [neon_paeth_lane x a b c (haLt a (by simp)) (hbLt b (by simp))
            (hcLt c (by simp))]
          rw [ih as bs cs (fun v hv => haLt v (by simp [hv]))
            (fun v hv => hbLt v (by simp [hv]))
            (fun v hv => hcLt v (by simp [hv]))]

theorem neon_paethGo_eq (bpp : Nat) (h8 : bpp ≤ 8) (aS cS f p : List Nat)
    (ha : aS.length = bpp) (hc : cS.length = bpp)
    (haLt : ∀ v ∈ aS, v < 256) (hcLt : ∀ v ∈ cS, v < 256)
    (hp : ∀ v ∈ p, v < 256) :
    neon.paethGo bpp
      (List.map (Nat.cast : Nat → Int) aS ++ List.replicate (8 - bpp) 0)
      (List.map (Nat.cast : Nat → Int) cS ++ List.replicate (8 - bpp) 0)
      f p = paethGo bpp aS cS f p := by
  rw [neon.paethGo, paethGo]
  by_cases hg : bpp = 0 ∨ f.length < bpp ∨ p.length < bpp
  · rw [dif_pos hg, dif_pos hg]
  · push_neg at hg
    rw [dif_neg (by push_neg; omega), dif_neg (by push_neg; omega)]
    dsimp only
    have hbv : (List.take bpp p).length = bpp := by simp; omega
    rw [vaddq_s16_pad (List.map (Nat.cast : Nat → Int) aS) (List.map (Nat.cast : Nat → Int) (List.take bpp p)) (by simp [neon.vaddq_s16, neon.vsubq_s16, neon.vabsq_s16, neon.vcleq_s16, neon.vandq_u16, neon.vbslq_s16, length_zipWith3, ha, hc, hbv] <;> omega) (8 - bpp)]
    rw [vsubq_s16_pad (neon.vaddq_s16 (List.map (Nat.cast : Nat → Int) aS) (List.map (Nat.cast : Nat → Int) (List.take bpp p))) (List.map (Nat.cast : Nat → Int) cS) (by simp [neon.vaddq_s16, neon.vsubq_s16, neon.vabsq_s16, neon.vcleq_s16, neon.vandq_u16, neon.vbslq_s16, length_zipWith3, ha, hc, hbv] <;> omega) (8 - bpp)]
    rw [vsubq_s16_pad (neon.vsubq_s16 (neon.vaddq_s16 (List.map (Nat.cast : Nat → Int) aS) (List.map (Nat.cast : Nat → Int) (List.take bpp p))) (List.map (Nat.cast : Nat → Int) cS)) (List.map (Nat.cast : Nat → Int) aS) (by simp [neon.vaddq_s16, neon.vsubq_s16, neon.vabsq_s16, neon.vcleq_s16, neon.vandq_u16, neon.vbslq_s16, length_zipWith3, ha, hc, hbv] <;> omega) (8 - bpp)]
    rw [vsubq_s16_pad (neon.vsubq_s16 (neon.vaddq_s16 (List.map (Nat.cast : Nat → Int) aS) (List.map (Nat.cast : Nat → Int) (List.take bpp p))) (List.map (Nat.cast : Nat → Int) cS)) (List.map (Nat.cast : Nat → Int) (List.take bpp p)) (by simp [neon.vaddq_s16, neon.vsubq_s16, neon.vabsq_s16, neon.vcleq_s16, neon.vandq_u16, neon.vbslq_s16, length_zipWith3, ha, hc, hbv] <;> omega) (8 - bpp)]
    rw [vsubq_s16_pad (neon.vsubq_s16 (neon.vaddq_s16 (List.map (Nat.cast : Nat → Int) aS) (List.map (Nat.cast : Nat → Int) (List.take bpp p))) (List.map (Nat.cast : Nat → Int) cS)) (List.map (Nat.cast : Nat → Int) cS) (by simp [neon.vaddq_s16, neon.vsubq_s16, neon.vabsq_s16, neon.vcleq_s16, neon.vandq_u16, neon.vbslq_s16, length_zipWith3, ha, hc, hbv] <;> omega) (8 - bpp)]
    rw [vabsq_s16_pad (neon.vsubq_s16 (neon.vsubq_s16 (neon.vaddq_s16 (List.map (Nat.cast : Nat → Int) aS) (List.map (Nat.cast : Nat → Int) (List.take bpp p))) (List.map (Nat.cast : Nat → Int) cS)) (List.map (Nat.cast : Nat → Int) aS)) (8 - bpp)]
    rw [vabsq_s16_pad (neon.vsubq_s16 (neon.vsubq_s16 (neon.vaddq_s16 (List.map (Nat.cast : Nat → Int) aS) (List.map (Nat.cast : Nat → Int) (List.take bpp p))) (List.map (Nat.cast : Nat → Int) cS)) (List.map (Nat.cast : Nat → Int) (List.take bpp p))) (8 - bpp)]
    rw [vabsq_s16_pad (neon.vsubq_s16 (neon.vsubq_s16 (neon.vaddq_s16 (List.map (Nat.cast : Nat → Int) aS) (List.map (Nat.cast : Nat → Int) (List.take bpp p))) (List.map (Nat.cast : Nat → Int) cS)) (List.map (Nat.cast : Nat → Int) cS)) (8 - bpp)]
    rw [vcleq_s16_pad (neon.vabsq_s16 (neon.vsubq_s16 (neon.vsubq_s16 (neon.vaddq_s16 (List.map (Nat.cast : Nat → Int) aS) (List.map (Nat.cast : Nat → Int) (List.take bpp p))) (List.map (Nat.cast : Nat → Int) cS)) (List.map (Nat.cast : Nat → Int) aS))) (neon.vabsq_s16 (neon.vsubq_s16 (neon.vsubq_s16 (neon.vaddq_s16 (List.map (Nat.cast : Nat → Int) aS) (List.map (Nat.cast : Nat → Int) (List.take bpp p))) (List.map (Nat.cast : Nat → Int) cS)) (List.map (Nat.cast : Nat → Int) (List.take bpp p)))) (by simp [neon.vaddq_s16, neon.vsubq_s16, neon.vabsq_s16, neon.vcleq_s16, neon.vandq_u16, neon.vbslq_s16, length_zipWith3, ha, hc, hbv] <;> omega) (8 - bpp)]
    rw [vcleq_s16_pad (neon.vabsq_s16 (neon.vsubq_s16 (neon.vsubq_s16 (neon.vaddq_s16 (List.map (Nat.cast : Nat → Int) aS) (List.map (Nat.cast : Nat → Int) (List.take bpp p))) (List.map (Nat.cast : Nat → Int) cS)) (List.map (Nat.cast : Nat → Int) aS))) (neon.vabsq_s16 (neon.vsubq_s16 (neon.vsubq_s16 (neon.vaddq_s16 (List.map (Nat.cast : Nat → Int) aS) (List.map (Nat.cast : Nat → Int) (List.take bpp p))) (List.map (Nat.cast : Nat → Int) cS)) (List.map (Nat.cast : Nat → Int) cS))) (by simp [neon.vaddq_s16, neon.vsubq_s16, neon.vabsq_s16, neon.vcleq_s16, neon.vandq_u16, neon.vbslq_s16, length_zipWith3, ha, hc, hbv] <;> omega) (8 - bpp)]
    rw [vcleq_s16_pad (neon.vabsq_s16 (neon.vsubq_s16 (neon.vsubq_s16 (neon.vaddq_s16 (List.map (Nat.cast : Nat → Int) aS) (List.map (Nat.cast : Nat → Int) (List.take bpp p))) (List.map (Nat.cast : Nat → Int) cS)) (List.map (Nat.cast : Nat → Int) (List.take bpp p)))) (neon.vabsq_s16 (neon.vsubq_s16 (neon.vsubq_s16 (neon.vaddq_s16 (List.map (Nat.cast : Nat → Int) aS) (List.map (Nat.cast : Nat → Int) (List.take bpp p))) (List.map (Nat.cast : Nat → Int) cS)) (List.map (Nat.cast : Nat → Int) cS))) (by simp [neon.vaddq_s16, neon.vsubq_s16, neon.vabsq_s16, neon.vcleq_s16, neon.vandq_u16, neon.vbslq_s16, length_zipWith3, ha, hc, hbv] <;> omega) (8 - bpp)]
    rw [vandq_u16_pad (neon.vcleq_s16 (neon.vabsq_s16 (neon.vsubq_s16 (neon.vsubq_s16 (neon.vaddq_s16 (List.map (Nat.cast : Nat → Int) aS) (List.map (Nat.cast : Nat → Int) (List.take bpp p))) (List.map (Nat.cast : Nat → Int) cS)) (List.map (Nat.cast : Nat → Int) aS))) (neon.vabsq_s16 (neon.vsubq_s16 (neon.vsubq_s16 (neon.vaddq_s16 (List.map (Nat.cast : Nat → Int) aS) (List.map (Nat.cast : Nat → Int) (List.take bpp p))) (List.map (Nat.cast : Nat → Int) cS)) (List.map (Nat.cast : Nat → Int) (List.take bpp p))))) (neon.vcleq_s16 (neon.vabsq_s16 (neon.vsubq_s16 (neon.vsubq_s16 (neon.vaddq_s16 (List.map (Nat.cast : Nat → Int) aS) (List.map (Nat.cast : Nat → Int) (List.take bpp p))) (List.map (Nat.cast : Nat → Int) cS)) (List.map (Nat.cast : Nat → Int) aS))) (neon.vabsq_s16 (neon.vsubq_s16 (neon.vsubq_s16 (neon.vaddq_s16 (List.map (Nat.cast : Nat → Int) aS) (List.map (Nat.cast : Nat → Int) (List.take bpp p))) (List.map (Nat.cast : Nat → Int) cS)) (List.map (Nat.cast : Nat → Int) cS)))) (by simp [neon.vaddq_s16, neon.vsubq_s16, neon.vabsq_s16, neon.vcleq_s16, neon.vandq_u16, neon.vbslq_s16, length_zipWith3, ha, hc, hbv] <;> omega) (8 - bpp)]
    rw [vbslq_s16_pad (neon.vcleq_s16 (neon.vabsq_s16 (neon.vsubq_s16 (neon.vsubq_s16 (neon.vaddq_s16 (List.map (Nat.cast : Nat → Int) aS) (List.map (Nat.cast : Nat → Int) (List.take bpp p))) (List.map (Nat.cast : Nat → Int) cS)) (List.map (Nat.cast : Nat → Int) (List.take bpp p)))) (neon.vabsq_s16 (neon.vsubq_s16 (neon.vsubq_s16 (neon.vaddq_s16 (List.map (Nat.cast : Nat → Int) aS) (List.map (Nat.cast : Nat → Int) (List.take bpp p))) (List.map (Nat.cast : Nat → Int) cS)) (List.map (Nat.cast : Nat → Int) cS)))) (List.map (Nat.cast : Nat → Int) (List.take bpp p)) (List.map (Nat.cast : Nat → Int) cS) (by simp [neon.vaddq_s16, neon.vsubq_s16, neon.vabsq_s16, neon.vcleq_s16, neon.vandq_u16, neon.vbslq_s16, length_zipWith3, ha, hc, hbv] <;> omega) (by simp [neon.vaddq_s16, neon.vsubq_s16, neon.vabsq_s16, neon.vcleq_s16, neon.vandq_u16, neon.vbslq_s16, length_zipWith3, ha, hc, hbv] <;> omega) (8 - bpp)]
    rw [vbslq_s16_pad (neon.vandq_u16 (neon.vcleq_s16 (neon.vabsq_s16 (neon.vsubq_s16 (neon.vsubq_s16 (neon.vaddq_s16 (List.map (Nat.cast : Nat → Int) aS) (List.map (Nat.cast : Nat → Int) (List.take bpp p))) (List.map (Nat.cast : Nat → Int) cS)) (List.map (Nat.cast : Nat → Int) aS))) (neon.vabsq_s16 (neon.vsubq_s16 (neon.vsubq_s16 (neon.vaddq_s16 (List.map (Nat.cast : Nat → Int) aS) (List.map (Nat.cast : Nat → Int) (List.take bpp p))) (List.map (Nat.cast : Nat → Int) cS)) (List.map (Nat.cast : Nat → Int) (List.take bpp p))))) (neon.vcleq_s16 (neon.vabsq_s16 (neon.vsubq_s16 (neon.vsubq_s16 (neon.vaddq_s16 (List.map (Nat.cast : Nat → Int) aS) (List.map (Nat.cast : Nat → Int) (List.take bpp p))) (List.map (Nat.cast : Nat → Int) cS)) (List.map (Nat.cast : Nat → Int) aS))) (neon.vabsq_s16 (neon.vsubq_s16 (neon.vsubq_s16 (neon.vaddq_s16 (List.map (Nat.cast : Nat → Int) aS) (List.map (Nat.cast : Nat → Int) (List.take bpp p))) (List.map (Nat.cast : Nat → Int) cS)) (List.map (Nat.cast : Nat → Int) cS))))) (List.map (Nat.cast : Nat → Int) aS) (neon.vbslq_s16 (neon.vcleq_s16 (neon.vabsq_s16 (neon.vsubq_s16 (neon.vsubq_s16 (neon.vaddq_s16 (List.map (Nat.cast : Nat → Int) aS) (List.map (Nat.cast : Nat → Int) (List.take bpp p))) (List.map (Nat.cast : Nat → Int) cS)) (List.map (Nat.cast : Nat → Int) (List.take bpp p)))) (neon.vabsq_s16 (neon.vsubq_s16 (neon.vsubq_s16 (neon.vaddq_s16 (List.map (Nat.cast : Nat → Int) aS) (List.map (Nat.cast : Nat → Int) (List.take bpp p))) (List.map (Nat.cast : Nat → Int) cS)) (List.map (Nat.cast : Nat → Int) cS)))) (List.map (Nat.cast : Nat → Int) (List.take bpp p)) (List.map (Nat.cast : Nat → Int) cS)) (by simp [neon.vaddq_s16, neon.vsubq_s16, neon.vabsq_s16, neon.vcleq_s16, neon.vandq_u16, neon.vbslq_s16, length_zipWith3, ha, hc, hbv] <;> omega) (by simp [neon.vaddq_s16, neon.vsubq_s16, neon.vabsq_s16, neon.vcleq_s16, neon.vandq_u16, neon.vbslq_s16, length_zipWith3, ha, hc, hbv] <;> omega) (8 - bpp)]
    rw [narrow_low ((neon.vbslq_s16 (neon.vandq_u16 (neon.vcleq_s16 (neon.vabsq_s16 (neon.vsubq_s16 (neon.vsubq_s16 (neon.vaddq_s16 (List.map (Nat.cast : Nat → Int) aS) (List.map (Nat.cast : Nat → Int) (List.take bpp p))) (List.map (Nat.cast : Nat → Int) cS)) (List.map (Nat.cast : Nat → Int) aS))) (neon.vabsq_s16 (neon.vsubq_s16 (neon.vsubq_s16 (neon.vaddq_s16 (List.map (Nat.cast : Nat → Int) aS) (List.map (Nat.cast : Nat → Int) (List.take bpp p))) (List.map (Nat.cast : Nat → Int) cS)) (List.map (Nat.cast : Nat → Int) (List.take bpp p))))) (neon.vcleq_s16 (neon.vabsq_s16 (neon.vsubq_s16 (neon.vsubq_s16 (neon.vaddq_s16 (List.map (Nat.cast : Nat → Int) aS) (List.map (Nat.cast : Nat → Int) (List.take bpp p))) (List.map (Nat.cast : Nat → Int) cS)) (List.map (Nat.cast : Nat → Int) aS))) (neon.vabsq_s16 (neon.vsubq_s16 (neon.vsubq_s16 (neon.vaddq_s16 (List.map (Nat.cast : Nat → Int) aS) (List.map (Nat.cast : Nat → Int) (List.take bpp p))) (List.map (Nat.cast : Nat → Int) cS)) (List.map (Nat.cast : Nat → Int) cS))))) (List.map (Nat.cast : Nat → Int) aS) (neon.vbslq_s16 (neon.vcleq_s16 (neon.vabsq_s16 (neon.vsubq_s16 (neon.vsubq_s16 (neon.vaddq_s16 (List.map (Nat.cast : Nat → Int) aS) (List.map (Nat.cast : Nat → Int) (List.take bpp p))) (List.map (Nat.cast : Nat → Int) cS)) (List.map (Nat.cast : Nat → Int) (List.take bpp p)))) (neon.vabsq_s16 (neon.vsubq_s16 (neon.vsubq_s16 (neon.vaddq_s16 (List.map (Nat.cast : Nat → Int) aS) (List.map (Nat.cast : Nat → Int) (List.take bpp p))) (List.map (Nat.cast : Nat → Int) cS)) (List.map (Nat.cast : Nat → Int) cS)))) (List.map (Nat.cast : Nat → Int) (List.take bpp p)) (List.map (Nat.cast : Nat → Int) cS))) ++ List.replicate (8 - bpp) 0) (by simp [neon.vaddq_s16, neon.vsubq_s16, neon.vabsq_s16, neon.vcleq_s16, neon.vandq_u16, neon.vbslq_s16, length_zipWith3, ha, hc, hbv] <;> omega)]
    rw [List.map_append, List.map_replicate, u8ofI16_zero]
    have hx : neon.vadd_u8 (neon.vload8 bpp (List.take bpp f))
        (List.map u8ofI16 (neon.vbslq_s16 (neon.vandq_u16 (neon.vcleq_s16 (neon.vabsq_s16 (neon.vsubq_s16 (neon.vsubq_s16 (neon.vaddq_s16 (List.map (Nat.cast : Nat → Int) aS) (List.map (Nat.cast : Nat → Int) (List.take bpp p))) (List.map (Nat.cast : Nat → Int) cS)) (List.map (Nat.cast : Nat → Int) aS))) (neon.vabsq_s16 (neon.vsubq_s16 (neon.vsubq_s16 (neon.vaddq_s16 (List.map (Nat.cast : Nat → Int) aS) (List.map (Nat.cast : Nat → Int) (List.take bpp p))) (List.map (Nat.cast : Nat → Int) cS)) (List.map (Nat.cast : Nat → Int) (List.take bpp p))))) (neon.vcleq_s16 (neon.vabsq_s16 (neon.vsubq_s16 (neon.vsubq_s16 (neon.vaddq_s16 (List.map (Nat.cast : Nat → Int) aS) (List.map (Nat.cast : Nat → Int) (List.take bpp p))) (List.map (Nat.cast : Nat → Int) cS)) (List.map (Nat.cast : Nat → Int) aS))) (neon.vabsq_s16 (neon.vsubq_s16 (neon.vsubq_s16 (neon.vaddq_s16 (List.map (Nat.cast : Nat → Int) aS) (List.map (Nat.cast : Nat → Int) (List.take bpp p))) (List.map (Nat.cast : Nat → Int) cS)) (List.map (Nat.cast : Nat → Int) cS))))) (List.map (Nat.cast : Nat → Int) aS) (neon.vbslq_s16 (neon.vcleq_s16 (neon.vabsq_s16 (neon.vsubq_s16 (neon.vsubq_s16 (neon.vaddq_s16 (List.map (Nat.cast : Nat → Int) aS) (List.map (Nat.cast : Nat → Int) (List.take bpp p))) (List.map (Nat.cast : Nat → Int) cS)) (List.map (Nat.cast : Nat → Int) (List.take bpp p)))) (neon.vabsq_s16 (neon.vsubq_s16 (neon.vsubq_s16 (neon.vaddq_s16 (List.map (Nat.cast : Nat → Int) aS) (List.map (Nat.cast : Nat → Int) (List.take bpp p))) (List.map (Nat.cast : Nat → Int) cS)) (List.map (Nat.cast : Nat → Int) cS)))) (List.map (Nat.cast : Nat → Int) (List.take bpp p)) (List.map (Nat.cast : Nat → Int) cS))) ++ List.replicate (8 - bpp) 0) = (List.zipWith4 paethStep (List.take bpp f) aS (List.take bpp p) cS) ++ List.replicate (8 - bpp) 0 := by
      unfold neon.vload8 neon.vadd_u8
      rw [List.zipWith_append _ _ _ _ _
        (by simp [neon.vaddq_s16, neon.vsubq_s16, neon.vabsq_s16, neon.vcleq_s16, neon.vandq_u16, neon.vbslq_s16, length_zipWith3, ha, hc, hbv] <;> omega)]
      rw [zipWith_wadd_rep0]
      rw [neon_paeth_chunk (List.take bpp f) aS (List.take bpp p) cS haLt
        (fun v hv => hp v (List.take_subset bpp p hv)) hcLt]
    rw [hx]
    rw [List.take_left' (by rw [length_zipWith4]; simp [ha, hc, hbv] <;> omega)]
    have hXLlen : ((List.zipWith4 paethStep (List.take bpp f) aS (List.take bpp p) cS)).length = bpp := by
      rw [length_zipWith4]; simp [ha, hc, hbv] <;> omega
    have hXLlt : ∀ v ∈ (List.zipWith4 paethStep (List.take bpp f) aS (List.take bpp p) cS), v < 256 :=
      mem_zipWith4_lt256 paethStep
        (fun a b c d => by unfold paethStep; exact wadd_lt256 _ _) _ _ _ _
    have ha2 : neon.vreinterpretq_s16_u8 (neon.vzip1q_u8
        (neon.vcombine_u8 ((List.zipWith4 paethStep (List.take bpp f) aS (List.take bpp p) cS) ++ List.replicate (8 - bpp) 0) (List.replicate 8 0))
        (List.replicate 16 0)) =
        List.map (Nat.cast : Nat → Int) (List.zipWith4 paethStep (List.take bpp f) aS (List.take bpp p) cS) ++ List.replicate (8 - bpp) 0
        := by
      rw [widen_low ((List.zipWith4 paethStep (List.take bpp f) aS (List.take bpp p) cS) ++ List.replicate (8 - bpp) 0) (by simp [hXLlen] <;> omega) (by
        intro v hv
        rcases List.mem_append.mp hv with h | h
        · exact hXLlt v h
        · rw [List.eq_of_mem_replicate h] <;> omega)]
      rw [List.map_append, List.map_replicate]
      norm_num
    rw [ha2]
    exact congrArg _ (neon_paethGo_eq bpp h8 (List.zipWith4 paethStep (List.take bpp f) aS (List.take bpp p) cS) (List.take bpp p)
      (f.drop bpp) (p.drop bpp) hXLlen hbv hXLlt
      (fun v hv => hp v (List.take_subset bpp p hv))
      (fun v hv => hp v (List.drop_subset bpp p hv)))
termination_by f.length
decreasing_by simp only [List.length_drop] <;> omega

theorem mm_add_epi16_pad (x y : List Int) (h : x.length = y.length)
    (k : Nat) :
    sse4_1.mm_add_epi16 (x ++ List.replicate k 0)
      (y ++ List.replicate k 0) =
      sse4_1.mm_add_epi16 x y ++ List.replicate k 0 := by
  unfold sse4_1.mm_add_epi16
  rw [List.zipWith_append _ _ _ _ _ h, zipWith_add16_rep0]

theorem mm_sub_epi16_pad (x y : List Int) (h : x.length = y.length)
    (k : Nat) :
    sse4_1.mm_sub_epi16 (x ++ List.replicate k 0)
      (y ++ List.replicate k 0) =
      sse4_1.mm_sub_epi16 x y ++ List.replicate k 0 := by
  unfold sse4_1.mm_sub_epi16
  rw [List.zipWith_append _ _ _ _ _ h, zipWith_sub16_rep0]

theorem mm_abs_epi16_pad (x : List Int) (k : Nat) :
    sse4_1.mm_abs_epi16 (x ++ List.replicate k 0) =
      sse4_1.mm_abs_epi16 x ++ List.replicate k 0 := by
  unfold sse4_1.mm_abs_epi16
  rw [List.map_append, List.map_replicate, absI16_zero]

theorem zipWith_clt_rep0 (k : Nat) :
    List.zipWith (fun a b => decide (a < b)) (List.replicate k (0 : Int))
      (List.replicate k (0 : Int)) = List.replicate k false := by
  induction k with
  | zero => rfl
  | succ k ih => simp [List.replicate, ih]

theorem zipWith_ceq_rep0 (k : Nat) :
    List.zipWith (fun a b => decide (a = b)) (List.replicate k (0 : Int))
      (List.replicate k (0 : Int)) = List.replicate k true := by
  induction k with
  | zero => rfl
  | succ k ih => simp [List.replicate, ih]

theorem zipWith_or_repFT (k : Nat) :
    List.zipWith or (List.replicate k false) (List.replicate k true) =
      List.replicate k true := by
  induction k with
  | zero => rfl
  | succ k ih => simp [List.replicate, ih]

theorem i16_le_pad (x y : List Int) (h : x.length = y.length) (k : Nat) :
    sse4_1.i16_le_sse2 (x ++ List.replicate k 0)
      (y ++ List.replicate k 0) =
      sse4_1.i16_le_sse2 x y ++ List.replicate k true := by
  unfold sse4_1.i16_le_sse2 sse4_1.mm_cmplt_epi16 sse4_1.mm_cmpeq_epi16
    sse4_1.mm_or_si128
  rw [List.zipWith_append _ _ _ _ _ h, zipWith_clt_rep0]
  rw [List.zipWith_append _ _ _ _ _ h, zipWith_ceq_rep0]
  rw [List.zipWith_append _ _ _ _ _ (by simp [h]), zipWith_or_repFT]

theorem mm_and_si128_pad (x y : List Bool) (h : x.length = y.length)
    (k : Nat) :
    sse4_1.mm_and_si128 (x ++ List.replicate k true)
      (y ++ List.replicate k true) =
      sse4_1.mm_and_si128 x y ++ List.replicate k true := by
  unfold sse4_1.mm_and_si128
  rw [List.zipWith_append _ _ _ _ _ h, zipWith_and_repT]

theorem zipWith3_blendv_rep0 (k : Nat) :
    List.zipWith3 (fun xv yv mv => if mv then yv else xv)
      (List.replicate k (0 : Int)) (List.replicate k (0 : Int))
      (List.replicate k true) = List.replicate k 0 := by
  induction k with
  | zero => rfl
  | succ k ih => simp [List.replicate, List.zipWith3, ih]

theorem mm_blendv_pad (x y : List Int) (m : List Bool)
    (h1 : x.length = y.length) (h2 : x.length = m.length) (k : Nat) :
    sse4_1.mm_blendv_epi8 (x ++ List.replicate k 0)
      (y ++ List.replicate k 0) (m ++ List.replicate k true) =
      sse4_1.mm_blendv_epi8 x y m ++ List.replicate k 0 := by
  unfold sse4_1.mm_blendv_epi8
  rw [zipWith3_append _ _ _ _ _ _ _ h1 h2, zipWith3_blendv_rep0]

theorem sse_paeth_lane (fv av bv cv : Nat) (ha : av < 256) (hb : bv < 256)
    (hc : cv < 256) :
    wadd fv (sse4_1.satu8
      (if (and (or (decide (absI16 (toI16 (toI16 (toI16 ((av : Int) + bv) - cv) - av)) < absI16 (toI16 (toI16 (toI16 ((av : Int) + bv) - cv) - bv)))) (decide (absI16 (toI16 (toI16 (toI16 ((av : Int) + bv) - cv) - av)) = absI16 (toI16 (toI16 (toI16 ((av : Int) + bv) - cv) - bv))))) (or (decide (absI16 (toI16 (toI16 (toI16 ((av : Int) + bv) - cv) - av)) < absI16 (toI16 (toI16 (toI16 ((av : Int) + bv) - cv) - cv)))) (decide (absI16 (toI16 (toI16 (toI16 ((av : Int) + bv) - cv) - av)) = absI16 (toI16 (toI16 (toI16 ((av : Int) + bv) - cv) - cv))))))
        then (av : Int)
        else if (or (decide (absI16 (toI16 (toI16 (toI16 ((av : Int) + bv) - cv) - bv)) < absI16 (toI16 (toI16 (toI16 ((av : Int) + bv) - cv) - cv)))) (decide (absI16 (toI16 (toI16 (toI16 ((av : Int) + bv) - cv) - bv)) = absI16 (toI16 (toI16 (toI16 ((av : Int) + bv) - cv) - cv))))) then (bv : Int) else (cv : Int))) =
      paethStep fv av bv cv := by
  rw [paethStep_eq fv av bv cv ha hb hc]
  rw [toI16_eq_self ((av : Int) + bv) (by omega) (by omega)]
  rw [toI16_eq_self ((av : Int) + bv - cv) (by omega) (by omega)]
  rw [toI16_eq_self ((av : Int) + bv - cv - av) (by omega) (by omega)]
  rw [toI16_eq_self ((av : Int) + bv - cv - bv) (by omega) (by omega)]
  rw [toI16_eq_self ((av : Int) + bv - cv - cv) (by omega) (by omega)]
  rw [absI16_eq_abs ((av : Int) + bv - cv - av) (by omega) (by omega)]
  rw [absI16_eq_abs ((av : Int) + bv - cv - bv) (by omega) (by omega)]
  rw [absI16_eq_abs ((av : Int) + bv - cv - cv) (by omega) (by omega)]
  simp only [Bool.and_eq_true, Bool.or_eq_true, decide_eq_true_eq,
    ← le_iff_lt_or_eq]
  split_ifs with h1 h2
  · rw [satu8_ofNat av ha]
  · rw [satu8_ofNat bv hb]
  · rw [satu8_ofNat cv hc]

theorem sse_paeth_chunk (ch aS bch cS : List Nat)
    (haLt : ∀ v ∈ aS, v < 256) (hbLt : ∀ v ∈ bch, v < 256)
    (hcLt : ∀ v ∈ cS, v < 256) :
    List.zipWith wadd ch (List.map sse4_1.satu8 (sse4_1.mm_blendv_epi8 (sse4_1.mm_blendv_epi8 (List.map (Nat.cast : Nat → Int) cS) (List.map (Nat.cast : Nat → Int) bch) (sse4_1.i16_le_sse2 (sse4_1.mm_abs_epi16 (sse4_1.mm_sub_epi16 (sse4_1.mm_sub_epi16 (sse4_1.mm_add_epi16 (List.map (Nat.cast : Nat → Int) aS) (List.map (Nat.cast : Nat → Int) bch)) (List.map (Nat.cast : Nat → Int) cS)) (List.map (Nat.cast : Nat → Int) bch))) (sse4_1.mm_abs_epi16 (sse4_1.mm_sub_epi16 (sse4_1.mm_sub_epi16 (sse4_1.mm_add_epi16 (List.map (Nat.cast : Nat → Int) aS) (List.map (Nat.cast : Nat → Int) bch)) (List.map (Nat.cast : Nat → Int) cS)) (List.map (Nat.cast : Nat → Int) cS))))) (List.map (Nat.cast : Nat → Int) aS) (sse4_1.mm_and_si128 (sse4_1.i16_le_sse2 (sse4_1.mm_abs_epi16 (sse4_1.mm_sub_epi16 (sse4_1.mm_sub_epi16 (sse4_1.mm_add_epi16 (List.map (Nat.cast : Nat → Int) aS) (List.map (Nat.cast : Nat → Int) bch)) (List.map (Nat.cast : Nat → Int) cS)) (List.map (Nat.cast : Nat → Int) aS))) (sse4_1.mm_abs_epi16 (sse4_1.mm_sub_epi16 (sse4_1.mm_sub_epi16 (sse4_1.mm_add_epi16 (List.map (Nat.cast : Nat → Int) aS) (List.map (Nat.cast : Nat → Int) bch)) (List.map (Nat.cast : Nat → Int) cS)) (List.map (Nat.cast : Nat → Int) bch)))) (sse4_1.i16_le_sse2 (sse4_1.mm_abs_epi16 (sse4_1.mm_sub_epi16 (sse4_1.mm_sub_epi16 (sse4_1.mm_add_epi16 (List.map (Nat.cast : Nat → Int) aS) (List.map (Nat.cast : Nat → Int) bch)) (List.map (Nat.cast : Nat → Int) cS)) (List.map (Nat.cast : Nat → Int) aS))) (sse4_1.mm_abs_epi16 (sse4_1.mm_sub_epi16 (sse4_1.mm_sub_epi16 (sse4_1.mm_add_epi16 (List.map (Nat.cast : Nat → Int) aS) (List.map (Nat.cast : Nat → Int) bch)) (List.map (Nat.cast : Nat → Int) cS)) (List.map (Nat.cast : Nat → Int) cS))))))) =
      List.zipWith4 paethStep ch aS bch cS := by
  induction ch generalizing aS bch cS with
  | nil => rfl
  | cons x xs ih =>
    cases aS with
    | nil => simp [sse4_1.mm_add_epi16, sse4_1.mm_sub_epi16, sse4_1.mm_abs_epi16, sse4_1.i16_le_sse2, sse4_1.mm_cmplt_epi16, sse4_1.mm_cmpeq_epi16, sse4_1.mm_or_si128, sse4_1.mm_and_si128, sse4_1.mm_blendv_epi8, List.map, List.zipWith, List.zipWith3, List.zipWith4]
    | cons a as =>
      cases bch with
      | nil => simp [sse4_1.mm_add_epi16, sse4_1.mm_sub_epi16, sse4_1.mm_abs_epi16, sse4_1.i16_le_sse2, sse4_1.mm_cmplt_epi16, sse4_1.mm_cmpeq_epi16, sse4_1.mm_or_si128, sse4_1.mm_and_si128, sse4_1.mm_blendv_epi8, List.map, List.zipWith, List.zipWith3, List.zipWith4]
      | cons b bs =>
        cases cS with
        | nil => simp [sse4_1.mm_add_epi16, sse4_1.mm_sub_epi16, sse4_1.mm_abs_epi16, sse4_1.i16_le_sse2, sse4_1.mm_cmplt_epi16, sse4_1.mm_cmpeq_epi16, sse4_1.mm_or_si128, sse4_1.mm_and_si128, sse4_1.mm_blendv_epi8, List.map, List.zipWith, List.zipWith3, List.zipWith4]
        | cons c cs =>
          simp only [sse4_1.mm_add_epi16, sse4_1.mm_sub_epi16, sse4_1.mm_abs_epi16, sse4_1.i16_le_sse2, sse4_1.mm_cmplt_epi16, sse4_1.mm_cmpeq_epi16, sse4_1.mm_or_si128, sse4_1.mm_and_si128, sse4_1.mm_blendv_epi8, List.map, List.zipWith, List.zipWith3, List.zipWith4] at ih ⊢
          rw [sse_paeth_lane x a b c (haLt a (by simp)) (hbLt b (by simp))
            (hcLt c (by simp))]
          rw [ih as bs cs (fun v hv => haLt v (by simp [hv]))
            (fun v hv => hbLt v (by simp [hv]))
            (fun v hv => hcLt v (by simp [hv]))]

theorem sse4_1_paethGo_eq (bpp : Nat) (h8 : bpp ≤ 8) (aS cS f p : List Nat)
    (ha : aS.length = bpp) (hc : cS.length = bpp)
    (haLt : ∀ v ∈ aS, v < 256) (hcLt : ∀ v ∈ cS, v < 256)
    (hp : ∀ v ∈ p, v < 256) :
    sse4_1.paethGo bpp
      (List.map (Nat.cast : Nat → Int) aS ++ List.replicate (8 - bpp) 0)
      (List.map (Nat.cast : Nat → Int) cS ++ List.replicate (8 - bpp) 0)
      f p = paethGo bpp aS cS f p := by
  rw [sse4_1.paethGo, paethGo]
  by_cases hg : bpp = 0 ∨ f.length < bpp ∨ p.length < bpp
  · rw [dif_pos hg, dif_pos hg]
  · push_neg at hg
    rw [dif_neg (by push_neg; omega), dif_neg (by push_neg; omega)]
    dsimp only
    have hbv : (List.take bpp p).length = bpp := by simp <;> omega
    rw [mm_add_epi16_pad (List.map (Nat.cast : Nat → Int) aS) (List.map (Nat.cast : Nat → Int) (List.take bpp p)) (by simp [sse4_1.mm_add_epi16, sse4_1.mm_sub_epi16, sse4_1.mm_abs_epi16, sse4_1.i16_le_sse2, sse4_1.mm_cmplt_epi16, sse4_1.mm_cmpeq_epi16, sse4_1.mm_or_si128, sse4_1.mm_and_si128, sse4_1.mm_blendv_epi8, length_zipWith3, ha, hc, hbv] <;> omega) (8 - bpp)]
    rw [mm_sub_epi16_pad (sse4_1.mm_add_epi16 (List.map (Nat.cast : Nat → Int) aS) (List.map (Nat.cast : Nat → Int) (List.take bpp p))) (List.map (Nat.cast : Nat → Int) cS) (by simp [sse4_1.mm_add_epi16, sse4_1.mm_sub_epi16, sse4_1.mm_abs_epi16, sse4_1.i16_le_sse2, sse4_1.mm_cmplt_epi16, sse4_1.mm_cmpeq_epi16, sse4_1.mm_or_si128, sse4_1.mm_and_si128, sse4_1.mm_blendv_epi8, length_zipWith3, ha, hc, hbv] <;> omega) (8 - bpp)]
    rw [mm_sub_epi16_pad (sse4_1.mm_sub_epi16 (sse4_1.mm_add_epi16 (List.map (Nat.cast : Nat → Int) aS) (List.map (Nat.cast : Nat → Int) (List.take bpp p))) (List.map (Nat.cast : Nat → Int) cS)) (List.map (Nat.cast : Nat → Int) aS) (by simp [sse4_1.mm_add_epi16, sse4_1.mm_sub_epi16, sse4_1.mm_abs_epi16, sse4_1.i16_le_sse2, sse4_1.mm_cmplt_epi16, sse4_1.mm_cmpeq_epi16, sse4_1.mm_or_si128, sse4_1.mm_and_si128, sse4_1.mm_blendv_epi8, length_zipWith3, ha, hc, hbv] <;> omega) (8 - bpp)]
    rw [mm_sub_epi16_pad (sse4_1.mm_sub_epi16 (sse4_1.mm_add_epi16 (List.map (Nat.cast : Nat → Int) aS) (List.map (Nat.cast : Nat → Int) (List.take bpp p))) (List.map (Nat.cast : Nat → Int) cS)) (List.map (Nat.cast : Nat → Int) (List.take bpp p)) (by simp [sse4_1.mm_add_epi16, sse4_1.mm_sub_epi16, sse4_1.mm_abs_epi16, sse4_1.i16_le_sse2, sse4_1.mm_cmplt_epi16, sse4_1.mm_cmpeq_epi16, sse4_1.mm_or_si128, sse4_1.mm_and_si128, sse4_1.mm_blendv_epi8, length_zipWith3, ha, hc, hbv] <;> omega) (8 - bpp)]
    rw [mm_sub_epi16_pad (sse4_1.mm_sub_epi16 (sse4_1.mm_add_epi16 (List.map (Nat.cast : Nat → Int) aS) (List.map (Nat.cast : Nat → Int) (List.take bpp p))) (List.map (Nat.cast : Nat → Int) cS)) (List.map (Nat.cast : Nat → Int) cS) (by simp [sse4_1.mm_add_epi16, sse4_1.mm_sub_epi16, sse4_1.mm_abs_epi16, sse4_1.i16_le_sse2, sse4_1.mm_cmplt_epi16, sse4_1.mm_cmpeq_epi16, sse4_1.mm_or_si128, sse4_1.mm_and_si128, sse4_1.mm_blendv_epi8, length_zipWith3, ha, hc, hbv] <;> omega) (8 - bpp)]
    rw [mm_abs_epi16_pad (sse4_1.mm_sub_epi16 (sse4_1.mm_sub_epi16 (sse4_1.mm_add_epi16 (List.map (Nat.cast : Nat → Int) aS) (List.map (Nat.cast : Nat → Int) (List.take bpp p))) (List.map (Nat.cast : Nat → Int) cS)) (List.map (Nat.cast : Nat → Int) aS)) (8 - bpp)]
    rw [mm_abs_epi16_pad (sse4_1.mm_sub_epi16 (sse4_1.mm_sub_epi16 (sse4_1.mm_add_epi16 (List.map (Nat.cast : Nat → Int) aS) (List.map (Nat.cast : Nat → Int) (List.take bpp p))) (List.map (Nat.cast : Nat → Int) cS)) (List.map (Nat.cast : Nat → Int) (List.take bpp p))) (8 - bpp)]
    rw [mm_abs_epi16_pad (sse4_1.mm_sub_epi16 (sse4_1.mm_sub_epi16 (sse4_1.mm_add_epi16 (List.map (Nat.cast : Nat → Int) aS) (List.map (Nat.cast : Nat → Int) (List.take bpp p))) (List.map (Nat.cast : Nat → Int) cS)) (List.map (Nat.cast : Nat → Int) cS)) (8 - bpp)]
    rw [i16_le_pad (sse4_1.mm_abs_epi16 (sse4_1.mm_sub_epi16 (sse4_1.mm_sub_epi16 (sse4_1.mm_add_epi16 (List.map (Nat.cast : Nat → Int) aS) (List.map (Nat.cast : Nat → Int) (List.take bpp p))) (List.map (Nat.cast : Nat → Int) cS)) (List.map (Nat.cast : Nat → Int) aS))) (sse4_1.mm_abs_epi16 (sse4_1.mm_sub_epi16 (sse4_1.mm_sub_epi16 (sse4_1.mm_add_epi16 (List.map (Nat.cast : Nat → Int) aS) (List.map (Nat.cast : Nat → Int) (List.take bpp p))) (List.map (Nat.cast : Nat → Int) cS)) (List.map (Nat.cast : Nat → Int) (List.take bpp p)))) (by simp [sse4_1.mm_add_epi16, sse4_1.mm_sub_epi16, sse4_1.mm_abs_epi16, sse4_1.i16_le_sse2, sse4_1.mm_cmplt_epi16, sse4_1.mm_cmpeq_epi16, sse4_1.mm_or_si128, sse4_1.mm_and_si128, sse4_1.mm_blendv_epi8, length_zipWith3, ha, hc, hbv] <;> omega) (8 - bpp)]
    rw [i16_le_pad (sse4_1.mm_abs_epi16 (sse4_1.mm_sub_epi16 (sse4_1.mm_sub_epi16 (sse4_1.mm_add_epi16 (List.map (Nat.cast : Nat → Int) aS) (List.map (Nat.cast : Nat → Int) (List.take bpp p))) (List.map (Nat.cast : Nat → Int) cS)) (List.map (Nat.cast : Nat → Int) aS))) (sse4_1.mm_abs_epi16 (sse4_1.mm_sub_epi16 (sse4_1.mm_sub_epi16 (sse4_1.mm_add_epi16 (List.map (Nat.cast : Nat → Int) aS) (List.map (Nat.cast : Nat → Int) (List.take bpp p))) (List.map (Nat.cast : Nat → Int) cS)) (List.map (Nat.cast : Nat → Int) cS))) (by simp [sse4_1.mm_add_epi16, sse4_1.mm_sub_epi16, sse4_1.mm_abs_epi16, sse4_1.i16_le_sse2, sse4_1.mm_cmplt_epi16, sse4_1.mm_cmpeq_epi16, sse4_1.mm_or_si128, sse4_1.mm_and_si128, sse4_1.mm_blendv_epi8, length_zipWith3, ha, hc, hbv] <;> omega) (8 - bpp)]
    rw [i16_le_pad (sse4_1.mm_abs_epi16 (sse4_1.mm_sub_epi16 (sse4_1.mm_sub_epi16 (sse4_1.mm_add_epi16 (List.map (Nat.cast : Nat → Int) aS) (List.map (Nat.cast : Nat → Int) (List.take bpp p))) (List.map (Nat.cast : Nat → Int) cS)) (List.map (Nat.cast : Nat → Int) (List.take bpp p)))) (sse4_1.mm_abs_epi16 (sse4_1.mm_sub_epi16 (sse4_1.mm_sub_epi16 (sse4_1.mm_add_epi16 (List.map (Nat.cast : Nat → Int) aS) (List.map (Nat.cast : Nat → Int) (List.take bpp p))) (List.map (Nat.cast : Nat → Int) cS)) (List.map (Nat.cast : Nat → Int) cS))) (by simp [sse4_1.mm_add_epi16, sse4_1.mm_sub_epi16, sse4_1.mm_abs_epi16, sse4_1.i16_le_sse2, sse4_1.mm_cmplt_epi16, sse4_1.mm_cmpeq_epi16, sse4_1.mm_or_si128, sse4_1.mm_and_si128, sse4_1.mm_blendv_epi8, length_zipWith3, ha, hc, hbv] <;> omega) (8 - bpp)]
    rw [mm_and_si128_pad (sse4_1.i16_le_sse2 (sse4_1.mm_abs_epi16 (sse4_1.mm_sub_epi16 (sse4_1.mm_sub_epi16 (sse4_1.mm_add_epi16 (List.map (Nat.cast : Nat → Int) aS) (List.map (Nat.cast : Nat → Int) (List.take bpp p))) (List.map (Nat.cast : Nat → Int) cS)) (List.map (Nat.cast : Nat → Int) aS))) (sse4_1.mm_abs_epi16 (sse4_1.mm_sub_epi16 (sse4_1.mm_sub_epi16 (sse4_1.mm_add_epi16 (List.map (Nat.cast : Nat → Int) aS) (List.map (Nat.cast : Nat → Int) (List.take bpp p))) (List.map (Nat.cast : Nat → Int) cS)) (List.map (Nat.cast : Nat → Int) (List.take bpp p))))) (sse4_1.i16_le_sse2 (sse4_1.mm_abs_epi16 (sse4_1.mm_sub_epi16 (sse4_1.mm_sub_epi16 (sse4_1.mm_add_epi16 (List.map (Nat.cast : Nat → Int) aS) (List.map (Nat.cast : Nat → Int) (List.take bpp p))) (List.map (Nat.cast : Nat → Int) cS)) (List.map (Nat.cast : Nat → Int) aS))) (sse4_1.mm_abs_epi16 (sse4_1.mm_sub_epi16 (sse4_1.mm_sub_epi16 (sse4_1.mm_add_epi16 (List.map (Nat.cast : Nat → Int) aS) (List.map (Nat.cast : Nat → Int) (List.take bpp p))) (List.map (Nat.cast : Nat → Int) cS)) (List.map (Nat.cast : Nat → Int) cS)))) (by simp [sse4_1.mm_add_epi16, sse4_1.mm_sub_epi16, sse4_1.mm_abs_epi16, sse4_1.i16_le_sse2, sse4_1.mm_cmplt_epi16, sse4_1.mm_cmpeq_epi16, sse4_1.mm_or_si128, sse4_1.mm_and_si128, sse4_1.mm_blendv_epi8, length_zipWith3, ha, hc, hbv] <;> omega) (8 - bpp)]
    rw [mm_blendv_pad (List.map (Nat.cast : Nat → Int) cS) (List.map (Nat.cast : Nat → Int) (List.take bpp p)) (sse4_1.i16_le_sse2 (sse4_1.mm_abs_epi16 (sse4_1.mm_sub_epi16 (sse4_1.mm_sub_epi16 (sse4_1.mm_add_epi16 (List.map (Nat.cast : Nat → Int) aS) (List.map (Nat.cast : Nat → Int) (List.take bpp p))) (List.map (Nat.cast : Nat → Int) cS)) (List.map (Nat.cast : Nat → Int) (List.take bpp p)))) (sse4_1.mm_abs_epi16 (sse4_1.mm_sub_epi16 (sse4_1.mm_sub_epi16 (sse4_1.mm_add_epi16 (List.map (Nat.cast : Nat → Int) aS) (List.map (Nat.cast : Nat → Int) (List.take bpp p))) (List.map (Nat.cast : Nat → Int) cS)) (List.map (Nat.cast : Nat → Int) cS)))) (by simp [sse4_1.mm_add_epi16, sse4_1.mm_sub_epi16, sse4_1.mm_abs_epi16, sse4_1.i16_le_sse2, sse4_1.mm_cmplt_epi16, sse4_1.mm_cmpeq_epi16, sse4_1.mm_or_si128, sse4_1.mm_and_si128, sse4_1.mm_blendv_epi8, length_zipWith3, ha, hc, hbv] <;> omega) (by simp [sse4_1.mm_add_epi16, sse4_1.mm_sub_epi16, sse4_1.mm_abs_epi16, sse4_1.i16_le_sse2, sse4_1.mm_cmplt_epi16, sse4_1.mm_cmpeq_epi16, sse4_1.mm_or_si128, sse4_1.mm_and_si128, sse4_1.mm_blendv_epi8, length_zipWith3, ha, hc, hbv] <;> omega) (8 - bpp)]
    rw [mm_blendv_pad (sse4_1.mm_blendv_epi8 (List.map (Nat.cast : Nat → Int) cS) (List.map (Nat.cast : Nat → Int) (List.take bpp p)) (sse4_1.i16_le_sse2 (sse4_1.mm_abs_epi16 (sse4_1.mm_sub_epi16 (sse4_1.mm_sub_epi16 (sse4_1.mm_add_epi16 (List.map (Nat.cast : Nat → Int) aS) (List.map (Nat.cast : Nat → Int) (List.take bpp p))) (List.map (Nat.cast : Nat → Int) cS)) (List.map (Nat.cast : Nat → Int) (List.take bpp p)))) (sse4_1.mm_abs_epi16 (sse4_1.mm_sub_epi16 (sse4_1.mm_sub_epi16 (sse4_1.mm_add_epi16 (List.map (Nat.cast : Nat → Int) aS) (List.map (Nat.cast : Nat → Int) (List.take bpp p))) (List.map (Nat.cast : Nat → Int) cS)) (List.map (Nat.cast : Nat → Int) cS))))) (List.map (Nat.cast : Nat → Int) aS) (sse4_1.mm_and_si128 (sse4_1.i16_le_sse2 (sse4_1.mm_abs_epi16 (sse4_1.mm_sub_epi16 (sse4_1.mm_sub_epi16 (sse4_1.mm_add_epi16 (List.map (Nat.cast : Nat → Int) aS) (List.map (Nat.cast : Nat → Int) (List.take bpp p))) (List.map (Nat.cast : Nat → Int) cS)) (List.map (Nat.cast : Nat → Int) aS))) (sse4_1.mm_abs_epi16 (sse4_1.mm_sub_epi16 (sse4_1.mm_sub_epi16 (sse4_1.mm_add_epi16 (List.map (Nat.cast : Nat → Int) aS) (List.map (Nat.cast : Nat → Int) (List.take bpp p))) (List.map (Nat.cast : Nat → Int) cS)) (List.map (Nat.cast : Nat → Int) (List.take bpp p))))) (sse4_1.i16_le_sse2 (sse4_1.mm_abs_epi16 (sse4_1.mm_sub_epi16 (sse4_1.mm_sub_epi16 (sse4_1.mm_add_epi16 (List.map (Nat.cast : Nat → Int) aS) (List.map (Nat.cast : Nat → Int) (List.take bpp p))) (List.map (Nat.cast : Nat → Int) cS)) (List.map (Nat.cast : Nat → Int) aS))) (sse4_1.mm_abs_epi16 (sse4_1.mm_sub_epi16 (sse4_1.mm_sub_epi16 (sse4_1.mm_add_epi16 (List.map (Nat.cast : Nat → Int) aS) (List.map (Nat.cast : Nat → Int) (List.take bpp p))) (List.map (Nat.cast : Nat → Int) cS)) (List.map (Nat.cast : Nat → Int) cS))))) (by simp [sse4_1.mm_add_epi16, sse4_1.mm_sub_epi16, sse4_1.mm_abs_epi16, sse4_1.i16_le_sse2, sse4_1.mm_cmplt_epi16, sse4_1.mm_cmpeq_epi16, sse4_1.mm_or_si128, sse4_1.mm_and_si128, sse4_1.mm_blendv_epi8, length_zipWith3, ha, hc, hbv] <;> omega) (by simp [sse4_1.mm_add_epi16, sse4_1.mm_sub_epi16, sse4_1.mm_abs_epi16, sse4_1.i16_le_sse2, sse4_1.mm_cmplt_epi16, sse4_1.mm_cmpeq_epi16, sse4_1.mm_or_si128, sse4_1.mm_and_si128, sse4_1.mm_blendv_epi8, length_zipWith3, ha, hc, hbv] <;> omega) (8 - bpp)]
    have hpack : sse4_1.mm_packus_epi16 ((sse4_1.mm_blendv_epi8 (sse4_1.mm_blendv_epi8 (List.map (Nat.cast : Nat → Int) cS) (List.map (Nat.cast : Nat → Int) (List.take bpp p)) (sse4_1.i16_le_sse2 (sse4_1.mm_abs_epi16 (sse4_1.mm_sub_epi16 (sse4_1.mm_sub_epi16 (sse4_1.mm_add_epi16 (List.map (Nat.cast : Nat → Int) aS) (List.map (Nat.cast : Nat → Int) (List.take bpp p))) (List.map (Nat.cast : Nat → Int) cS)) (List.map (Nat.cast : Nat → Int) (List.take bpp p)))) (sse4_1.mm_abs_epi16 (sse4_1.mm_sub_epi16 (sse4_1.mm_sub_epi16 (sse4_1.mm_add_epi16 (List.map (Nat.cast : Nat → Int) aS) (List.map (Nat.cast : Nat → Int) (List.take bpp p))) (List.map (Nat.cast : Nat → Int) cS)) (List.map (Nat.cast : Nat → Int) cS))))) (List.map (Nat.cast : Nat → Int) aS) (sse4_1.mm_and_si128 (sse4_1.i16_le_sse2 (sse4_1.mm_abs_epi16 (sse4_1.mm_sub_epi16 (sse4_1.mm_sub_epi16 (sse4_1.mm_add_epi16 (List.map (Nat.cast : Nat → Int) aS) (List.map (Nat.cast : Nat → Int) (List.take bpp p))) (List.map (Nat.cast : Nat → Int) cS)) (List.map (Nat.cast : Nat → Int) aS))) (sse4_1.mm_abs_epi16 (sse4_1.mm_sub_epi16 (sse4_1.mm_sub_epi16 (sse4_1.mm_add_epi16 (List.map (Nat.cast : Nat → Int) aS) (List.map (Nat.cast : Nat → Int) (List.take bpp p))) (List.map (Nat.cast : Nat → Int) cS)) (List.map (Nat.cast : Nat → Int) (List.take bpp p))))) (sse4_1.i16_le_sse2 (sse4_1.mm_abs_epi16 (sse4_1.mm_sub_epi16 (sse4_1.mm_sub_epi16 (sse4_1.mm_add_epi16 (List.map (Nat.cast : Nat → Int) aS) (List.map (Nat.cast : Nat → Int) (List.take bpp p))) (List.map (Nat.cast : Nat → Int) cS)) (List.map (Nat.cast : Nat → Int) aS))) (sse4_1.mm_abs_epi16 (sse4_1.mm_sub_epi16 (sse4_1.mm_sub_epi16 (sse4_1.mm_add_epi16 (List.map (Nat.cast : Nat → Int) aS) (List.map (Nat.cast : Nat → Int) (List.take bpp p))) (List.map (Nat.cast : Nat → Int) cS)) (List.map (Nat.cast : Nat → Int) cS)))))) ++ List.replicate (8 - bpp) 0)
        (List.replicate 8 0) =
        List.map sse4_1.satu8 (sse4_1.mm_blendv_epi8 (sse4_1.mm_blendv_epi8 (List.map (Nat.cast : Nat → Int) cS) (List.map (Nat.cast : Nat → Int) (List.take bpp p)) (sse4_1.i16_le_sse2 (sse4_1.mm_abs_epi16 (sse4_1.mm_sub_epi16 (sse4_1.mm_sub_epi16 (sse4_1.mm_add_epi16 (List.map (Nat.cast : Nat → Int) aS) (List.map (Nat.cast : Nat → Int) (List.take bpp p))) (List.map (Nat.cast : Nat → Int) cS)) (List.map (Nat.cast : Nat → Int) (List.take bpp p)))) (sse4_1.mm_abs_epi16 (sse4_1.mm_sub_epi16 (sse4_1.mm_sub_epi16 (sse4_1.mm_add_epi16 (List.map (Nat.cast : Nat → Int) aS) (List.map (Nat.cast : Nat → Int) (List.take bpp p))) (List.map (Nat.cast : Nat → Int) cS)) (List.map (Nat.cast : Nat → Int) cS))))) (List.map (Nat.cast : Nat → Int) aS) (sse4_1.mm_and_si128 (sse4_1.i16_le_sse2 (sse4_1.mm_abs_epi16 (sse4_1.mm_sub_epi16 (sse4_1.mm_sub_epi16 (sse4_1.mm_add_epi16 (List.map (Nat.cast : Nat → Int) aS) (List.map (Nat.cast : Nat → Int) (List.take bpp p))) (List.map (Nat.cast : Nat → Int) cS)) (List.map (Nat.cast : Nat → Int) aS))) (sse4_1.mm_abs_epi16 (sse4_1.mm_sub_epi16 (sse4_1.mm_sub_epi16 (sse4_1.mm_add_epi16 (List.map (Nat.cast : Nat → Int) aS) (List.map (Nat.cast : Nat → Int) (List.take bpp p))) (List.map (Nat.cast : Nat → Int) cS)) (List.map (Nat.cast : Nat → Int) (List.take bpp p))))) (sse4_1.i16_le_sse2 (sse4_1.mm_abs_epi16 (sse4_1.mm_sub_epi16 (sse4_1.mm_sub_epi16 (sse4_1.mm_add_epi16 (List.map (Nat.cast : Nat → Int) aS) (List.map (Nat.cast : Nat → Int) (List.take bpp p))) (List.map (Nat.cast : Nat → Int) cS)) (List.map (Nat.cast : Nat → Int) aS))) (sse4_1.mm_abs_epi16 (sse4_1.mm_sub_epi16 (sse4_1.mm_sub_epi16 (sse4_1.mm_add_epi16 (List.map (Nat.cast : Nat → Int) aS) (List.map (Nat.cast : Nat → Int) (List.take bpp p))) (List.map (Nat.cast : Nat → Int) cS)) (List.map (Nat.cast : Nat → Int) cS)))))) ++ List.replicate (16 - bpp) 0 := by
      unfold sse4_1.mm_packus_epi16
      rw [List.map_append, map_satu8_rep0, map_satu8_rep0]
      rw [List.append_assoc, ← List.replicate_add]
      have hlen16 : (8 - bpp) + 8 = 16 - bpp := by omega
      rw [hlen16]
    rw [hpack]
    have hx : sse4_1.mm_add_epi8 (sse4_1.load16 bpp (List.take bpp f))
        (List.map sse4_1.satu8 (sse4_1.mm_blendv_epi8 (sse4_1.mm_blendv_epi8 (List.map (Nat.cast : Nat → Int) cS) (List.map (Nat.cast : Nat → Int) (List.take bpp p)) (sse4_1.i16_le_sse2 (sse4_1.mm_abs_epi16 (sse4_1.mm_sub_epi16 (sse4_1.mm_sub_epi16 (sse4_1.mm_add_epi16 (List.map (Nat.cast : Nat → Int) aS) (List.map (Nat.cast : Nat → Int) (List.take bpp p))) (List.map (Nat.cast : Nat → Int) cS)) (List.map (Nat.cast : Nat → Int) (List.take bpp p)))) (sse4_1.mm_abs_epi16 (sse4_1.mm_sub_epi16 (sse4_1.mm_sub_epi16 (sse4_1.mm_add_epi16 (List.map (Nat.cast : Nat → Int) aS) (List.map (Nat.cast : Nat → Int) (List.take bpp p))) (List.map (Nat.cast : Nat → Int) cS)) (List.map (Nat.cast : Nat → Int) cS))))) (List.map (Nat.cast : Nat → Int) aS) (sse4_1.mm_and_si128 (sse4_1.i16_le_sse2 (sse4_1.mm_abs_epi16 (sse4_1.mm_sub_epi16 (sse4_1.mm_sub_epi16 (sse4_1.mm_add_epi16 (List.map (Nat.cast : Nat → Int) aS) (List.map (Nat.cast : Nat → Int) (List.take bpp p))) (List.map (Nat.cast : Nat → Int) cS)) (List.map (Nat.cast : Nat → Int) aS))) (sse4_1.mm_abs_epi16 (sse4_1.mm_sub_epi16 (sse4_1.mm_sub_epi16 (sse4_1.mm_add_epi16 (List.map (Nat.cast : Nat → Int) aS) (List.map (Nat.cast : Nat → Int) (List.take bpp p))) (List.map (Nat.cast : Nat → Int) cS)) (List.map (Nat.cast : Nat → Int) (List.take bpp p))))) (sse4_1.i16_le_sse2 (sse4_1.mm_abs_epi16 (sse4_1.mm_sub_epi16 (sse4_1.mm_sub_epi16 (sse4_1.mm_add_epi16 (List.map (Nat.cast : Nat → Int) aS) (List.map (Nat.cast : Nat → Int) (List.take bpp p))) (List.map (Nat.cast : Nat → Int) cS)) (List.map (Nat.cast : Nat → Int) aS))) (sse4_1.mm_abs_epi16 (sse4_1.mm_sub_epi16 (sse4_1.mm_sub_epi16 (sse4_1.mm_add_epi16 (List.map (Nat.cast : Nat → Int) aS) (List.map (Nat.cast : Nat → Int) (List.take bpp p))) (List.map (Nat.cast : Nat → Int) cS)) (List.map (Nat.cast : Nat → Int) cS)))))) ++ List.replicate (16 - bpp) 0) =
        (List.zipWith4 paethStep (List.take bpp f) aS (List.take bpp p) cS) ++ List.replicate (16 - bpp) 0 := by
      unfold sse4_1.load16 sse4_1.mm_add_epi8
      rw [List.zipWith_append _ _ _ _ _
        (by simp [sse4_1.mm_add_epi16, sse4_1.mm_sub_epi16, sse4_1.mm_abs_epi16, sse4_1.i16_le_sse2, sse4_1.mm_cmplt_epi16, sse4_1.mm_cmpeq_epi16, sse4_1.mm_or_si128, sse4_1.mm_and_si128, sse4_1.mm_blendv_epi8, length_zipWith3, ha, hc, hbv] <;> omega)]
      rw [zipWith_wadd_rep0]
      rw [sse_paeth_chunk (List.take bpp f) aS (List.take bpp p) cS haLt
        (fun v hv => hp v (List.take_subset bpp p hv)) hcLt]
    rw [hx]
    rw [List.take_left'
      (by rw [length_zipWith4]; simp [ha, hc, hbv] <;> omega)]
    have hXLlen : ((List.zipWith4 paethStep (List.take bpp f) aS (List.take bpp p) cS)).length = bpp := by
      rw [length_zipWith4]; simp [ha, hc, hbv] <;> omega
    have hXLlt : ∀ v ∈ (List.zipWith4 paethStep (List.take bpp f) aS (List.take bpp p) cS), v < 256 :=
      mem_zipWith4_lt256 paethStep
        (fun a b c d => by unfold paethStep; exact wadd_lt256 _ _) _ _ _ _
    have ha2 : i16ofBytes (sse4_1.mm_unpacklo_epi8
        ((List.zipWith4 paethStep (List.take bpp f) aS (List.take bpp p) cS) ++ List.replicate (16 - bpp) 0) (List.replicate 16 0)) =
        List.map (Nat.cast : Nat → Int) (List.zipWith4 paethStep (List.take bpp f) aS (List.take bpp p) cS) ++ List.replicate (8 - bpp) 0
        := by
      unfold sse4_1.mm_unpacklo_epi8
      rw [take8_pad16 _ bpp hXLlen h8]
      rw [List.take_replicate]
      have hmin : min 8 16 = 8 := by norm_num
      rw [hmin]
      rw [i16ofBytes_interleave8 _ (by
        intro v hv
        rcases List.mem_append.mp hv with h | h
        · exact hXLlt v h
        · rw [List.eq_of_mem_replicate h]; omega)
        (by simp [hXLlen] <;> omega)]
      rw [List.map_append, List.map_replicate]
      norm_num
    rw [ha2]
    exact congrArg _ (sse4_1_paethGo_eq bpp h8 (List.zipWith4 paethStep (List.take bpp f) aS (List.take bpp p) cS) (List.take bpp p)
      (f.drop bpp) (p.drop bpp) hXLlen hbv hXLlt
      (fun v hv => hp v (List.take_subset bpp p hv))
      (fun v hv => hp v (List.drop_subset bpp p hv)))
termination_by f.length
decreasing_by simp only [List.length_drop]; omega

theorem replicate8_split (bpp : Nat) (h8 : bpp ≤ 8) :
    List.replicate 8 (0 : Nat) =
      List.replicate bpp 0 ++ List.replicate (8 - bpp) 0 := by
  rw [← List.replicate_add]
  congr 1
  omega

theorem replicate16_split (bpp : Nat) (h8 : bpp ≤ 8) :
    List.replicate 16 (0 : Nat) =
      List.replicate bpp 0 ++ List.replicate (16 - bpp) 0 := by
  rw [← List.replicate_add]
  congr 1
  omega

theorem replicate8_int_split (bpp : Nat) (h8 : bpp ≤ 8) :
    List.replicate 8 (0 : Int) =
      List.map (Nat.cast : Nat → Int) (List.replicate bpp 0) ++
        List.replicate (8 - bpp) 0 := by
  rw [List.map_replicate, Nat.cast_zero, ← List.replicate_add]
  congr 1
  omega

theorem mem_replicate0_lt256 (k : Nat) :
    ∀ v ∈ List.replicate k (0 : Nat), v < 256 := by
  intro v hv
  rw [List.eq_of_mem_replicate hv]
  omega

/-- C1: for every BYTES_PER_PIXEL in 1..=8 and every input (filtered_row
with length divisible by BYTES_PER_PIXEL, and for two-row operations a
previous_row of equal length), each vector kernel of src/src/neon.rs,
src/src/sse2.rs and src/src/sse4_1.rs leaves filtered_row in exactly the
same byte-for-byte state as the corresponding scalar fallback kernel of
src/src/lib.rs applied to the same input. -/
theorem C1_vector_kernel_equivalence :
    ∀ bpp f p, 1 ≤ bpp → bpp ≤ 8 → bpp ∣ f.length → f.length = p.length →
      (∀ v ∈ f, v < 256) → (∀ v ∈ p, v < 256) →
      neon.recon_sub bpp f = recon_sub_fallback bpp f ∧
      neon.recon_up f p = recon_up_fallback f p ∧
      neon.recon_average bpp f p = recon_average_fallback bpp f p ∧
      neon.recon_average_top bpp f = recon_average_top_fallback bpp f ∧
      neon.recon_paeth bpp f p = recon_paeth_fallback bpp f p ∧
      sse2.recon_sub bpp f = recon_sub_fallback bpp f ∧
      sse4_1.recon_sub bpp f = recon_sub_fallback bpp f ∧
      sse4_1.recon_up f p = recon_up_fallback f p ∧
      sse4_1.recon_average bpp f p = recon_average_fallback bpp f p ∧
      sse4_1.recon_average_top bpp f = recon_average_top_fallback bpp f ∧
      sse4_1.recon_paeth bpp f p = recon_paeth_fallback bpp f p := by
  intro bpp f p h1 h8 _hdvd _hlen _hf hp
  have ha : (List.replicate bpp (0 : Nat)).length = bpp := by simp
  have haLt : ∀ v ∈ List.replicate bpp (0 : Nat), v < 256 :=
    mem_replicate0_lt256 bpp
  refine ⟨?_, rfl, ?_, ?_, ?_, ?_, ?_, rfl, ?_, ?_, ?_⟩
  · unfold neon.recon_sub recon_sub_fallback
    rw [replicate8_split bpp h8]
    exact neon_subGo_eq bpp _ f ha
  · unfold neon.recon_average recon_average_fallback
    rw [replicate8_split bpp h8]
    exact neon_avgGo_eq bpp _ f p ha haLt hp
  · unfold neon.recon_average_top recon_average_top_fallback
    rw [replicate8_split bpp h8]
    exact neon_avgTopGo_eq bpp _ f ha
  · unfold neon.recon_paeth recon_paeth_fallback
    rw [replicate8_int_split bpp h8]
    exact neon_paethGo_eq bpp h8 _ _ f p ha ha haLt haLt hp
  · unfold sse2.recon_sub recon_sub_fallback
    rw [replicate16_split bpp h8]
    exact sse2_subGo_eq bpp _ f ha
  · unfold sse4_1.recon_sub recon_sub_fallback
    rw [replicate16_split bpp h8]
    exact sse4_1_subGo_eq bpp _ f ha
  · unfold sse4_1.recon_average recon_average_fallback
    rw [replicate8_int_split bpp h8]
    exact sse4_1_avgGo_eq bpp h8 _ f p ha haLt hp
  · unfold sse4_1.recon_average_top recon_average_top_fallback
    rw [replicate8_int_split bpp h8]
    exact sse4_1_avgTopGo_eq bpp h8 _ f ha haLt
  · unfold sse4_1.recon_paeth recon_paeth_fallback
    rw [replicate8_int_split bpp h8]
    exact sse4_1_paethGo_eq bpp h8 _ _ f p ha ha haLt haLt hp

/-- Witness for C1 at BYTES_PER_PIXEL = 2 on concrete rows. -/
theorem C1_witness :
    neon.recon_sub 2 [1, 2, 3, 255] = recon_sub_fallback 2 [1, 2, 3, 255] ∧
    sse4_1.recon_paeth 2 [1, 2, 3, 255] [12, 17, 127, 128] =
      recon_paeth_fallback 2 [1, 2, 3, 255] [12, 17, 127, 128] :=
  ⟨(C1_vector_kernel_equivalence 2 [1, 2, 3, 255] [12, 17, 127, 128]
      (by decide) (by decide) (by decide) (by decide) (by decide)
      (by decide)).1,
   (C1_vector_kernel_equivalence 2 [1, 2, 3, 255] [12, 17, 127, 128]
      (by decide) (by decide) (by decide) (by decide) (by decide)
      (by decide)).2.2.2.2.2.2.2.2.2.2⟩

/-- Witness for C2 at BYTES_PER_PIXEL = 1 on the concrete test rows. -/
theorem C2_witness :
    (recon_paeth_fallback 1 [1, 2, 3, 255, 5, 6, 7, 8]
      [12, 17, 127, 128, 255, 250, 7, 54]).length =
      ([1, 2, 3, 255, 5, 6, 7, 8] : List Nat).length :=
  (C2_recon_paeth_functional 1 [1, 2, 3, 255, 5, 6, 7, 8]
    [12, 17, 127, 128, 255, 250, 7, 54] (by decide) (by decide) (by decide)
    (by decide) (by decide)).1

/-- Witness for C3 at BYTES_PER_PIXEL = 3. -/
theorem C3_witness :
    recon_paeth_fallback 3 [1, 2, 3, 4, 5, 6] (List.replicate 6 0) =
      recon_sub_fallback 3 [1, 2, 3, 4, 5, 6] := by
  have h := C3_paeth_first_row_reduces_to_sub.1 3 [1, 2, 3, 4, 5, 6]
  simpa using h

/-- Witness for C4 at BYTES_PER_PIXEL = 2. -/
theorem C4_witness :
    (recon_average_fallback 2 [1, 2, 3, 255] [12, 17, 127, 128]).length =
      ([1, 2, 3, 255] : List Nat).length :=
  (C4_recon_average_functional 2 [1, 2, 3, 255] [12, 17, 127, 128]
    (by decide) (by decide) (by decide) (by decide) (by decide)).1

/-- Witness for C5 at BYTES_PER_PIXEL = 2. -/
theorem C5_witness :
    (recon_sub_fallback 2 [1, 2, 3, 255]).length =
      ([1, 2, 3, 255] : List Nat).length :=
  (C5_recon_sub_functional.1 2 [1, 2, 3, 255] (by decide) (by decide)
    (by decide)).1

/-- Witness for C6 at BYTES_PER_PIXEL = 2. -/
theorem C6_witness :
    (recon_average_top_fallback 2 [1, 2, 3, 255]).length =
      ([1, 2, 3, 255] : List Nat).length :=
  ((C6_average_top_functional.2) 2 [1, 2, 3, 255] (by decide) (by decide)
    (by decide)).1

/-- Witness for C7: abort at BYTES_PER_PIXEL = 9 with the row unchanged,
and a completed call at BYTES_PER_PIXEL = 2. -/
theorem C7_witness :
    recon_sub_fallback_checked 9 [1, 2] = .error [1, 2] ∧
    recon_sub_fallback_checked 2 [1, 2, 3, 4] =
      .ok (recon_sub_fallback 2 [1, 2, 3, 4]) :=
  ⟨((C7_bpp_guard 9 [1, 2] [3, 4]).1 (by decide)).1,
   ((C7_bpp_guard 2 [1, 2, 3, 4] [5, 6, 7, 8]).2 (by decide) (by decide)
      (by decide) (by decide)).1⟩

/-- Witness for C8 on three concrete rows with tags 7, 0 and 9. -/
theorem C8_witness :
    ((unfilter_lines 1 [[7, 1, 2], [0, 3, 4], [9, 5, 6]]).getD 2 []).headD 1
      = 0 ∧
    (unfilter_lines 1 [[7, 1, 2], [0, 3, 4], [9, 5, 6]]).getD 2 [] =
      0 :: (([[7, 1, 2], [0, 3, 4], [9, 5, 6]] :
        List (List Nat)).getD 2 []).tail :=
  ⟨(C8_dispatcher_retags 1 [[7, 1, 2], [0, 3, 4], [9, 5, 6]] 2 (by decide)
      (by decide)).2.1,
   (C8_dispatcher_retags 1 [[7, 1, 2], [0, 3, 4], [9, 5, 6]] 2 (by decide)
      (by decide)).2.2 (by decide)⟩

/-- Witness for C10 at BYTES_PER_PIXEL = 3 on rows of length 7 (one
trailing partial group). -/
theorem C10_witness :
    (recon_sub_fallback 3 [1, 2, 3, 4, 5, 6, 7]).length =
      ([1, 2, 3, 4, 5, 6, 7] : List Nat).length ∧
    (recon_sub_fallback 3 [1, 2, 3, 4, 5, 6, 7]).drop
        (3 * (([1, 2, 3, 4, 5, 6, 7] : List Nat).length / 3)) =
      ([1, 2, 3, 4, 5, 6, 7] : List Nat).drop
        (3 * (([1, 2, 3, 4, 5, 6, 7] : List Nat).length / 3)) :=
  (C10_kernel_frame 3 [1, 2, 3, 4, 5, 6, 7] [8, 9, 10, 11, 12, 13, 14]
    (by decide) (by decide)).1
